import Mathlib

/-!
Verification of the navii navigation sequencing and resumable session engine.

This file gives a shallow embedding of the Go sources `db.go`, `db.types.go`
and `stateManager.go` of the `ogundaremathew/navii` repository.  The SQLite
store is modelled as in-memory lists of rows (row order = insertion order,
matching SQLite's rowid order for `SELECT` without `ORDER BY`); `AUTOINCREMENT`
columns are modelled by explicit counters.  Machine integers that can never be
negative in the program (indices, ids) are `Nat`; Go `int` page numbers are
`Int`.  Store reads and writes never fail in the model (store-level I/O errors
are out of scope); fallible validation paths return `Except`.
-/

namespace Navii

/-- Entity row of the `countries` table (`db.types.go`, `Country`).  The table
has no surrogate id: `countryShort` is the primary key. -/
structure Country where
  country : String
  countryShort : String
  used : Bool
  external : Bool
deriving DecidableEq, Repr

/-- Entity row of the `states` table (`db.types.go`, `State`); composite
primary key `(stateShort, countryShort)`. -/
structure State where
  state : String
  stateShort : String
  countryShort : String
  used : Bool
  external : Bool
deriving DecidableEq, Repr

/-- Entity row of the `cities` table (`db.types.go`, `City`); `id` is the
`AUTOINCREMENT` surrogate key. -/
structure City where
  id : Nat
  city : String
  stateShort : String
  countryShort : String
  county : Option String
  used : Bool
  external : Bool
deriving DecidableEq, Repr

/-- Entity row of the `zips` table (`db.types.go`, `Zip`). -/
structure Zip where
  id : Nat
  zip : String
  countryShort : String
  used : Bool
  external : Bool
deriving DecidableEq, Repr

/-- Entity row of the `queries` table (`db.types.go`, `Query`). -/
structure Query where
  id : Nat
  query : String
  used : Bool
  external : Bool
deriving DecidableEq, Repr

/-- Pagination blob (`db.types.go`, `PageNav`): completed page numbers plus
the declared total. -/
structure PageNav where
  pages : List Int
  total : Int
deriving DecidableEq, Repr

/-- In-memory value of `NavResponse.Page` (`interface{}` in Go): either the
string sentinel `"completed"` or a `PageNav`; `Option` models `nil`. -/
inductive PageVal where
  | completed
  | pages (p : PageNav)
deriving DecidableEq, Repr

/-- Persisted `page` column of `nav_sessions` (a `TEXT` column in Go).
`empty` is `""`; `completedStr` is the literal string `completed`;
`pageNav p` is the JSON object `{pages, total}`; `quoted s` is a JSON-encoded
string (what `json.Marshal` produces from a Go `string` value) — it is NOT
equal to the bare sentinel. -/
inductive PageCol where
  | empty
  | completedStr
  | pageNav (p : PageNav)
  | quoted (s : String)
deriving DecidableEq, Repr

/-- Row of the `nav_sessions` table (`db.types.go`, `NavSession`). -/
structure NavSession where
  id : Nat
  format : String
  countryShort : String
  queryId : Option Nat
  zipId : Option Nat
  cityId : Option Nat
  stateShort : Option String
  page : PageCol
  completed : Bool
  external : Bool
deriving DecidableEq, Repr

/-- Sparse navigation step (`db.types.go`, `Nav`): each field is a nullable
pointer in Go. -/
structure Nav where
  query : Option String := none
  zip : Option String := none
  city : Option String := none
  state : Option String := none
  stateShort : Option String := none
  country : Option String := none
  countryShort : Option String := none
  county : Option String := none
deriving DecidableEq, Repr

/-- Navigation response (`db.types.go`, `NavResponse`).  `format` is the
string-typed `NavFormat`; `page` is the polymorphic page field. -/
structure NavResponse where
  format : String
  nav : Nav
  country : String
  placeholder : String
  page : Option PageVal
  hasNext : Bool
deriving DecidableEq, Repr

/-- Initialization options (`db.types.go`, `InitOptions`). -/
structure InitOptions where
  format : String
  targetCountry : String
deriving DecidableEq, Repr

/-- The SQLite database contents (the five entity tables plus
`nav_sessions`), with explicit counters for the `AUTOINCREMENT` columns.
List order models rowid (insertion) order. -/
structure Store where
  countries : List Country
  states : List State
  cities : List City
  zips : List Zip
  queries : List Query
  sessions : List NavSession
  nextCityId : Nat
  nextZipId : Nat
  nextQueryId : Nat
  nextSessionId : Nat
deriving DecidableEq, Repr

namespace DB

/-- `INSERT OR IGNORE INTO countries` for one row (`db.go`, `AddCountries`
loop body): skipped when the primary key `countryShort` is already present. -/
def insertCountry (c : Country) (ext : Bool) (st : Store) : Store :=
  if st.countries.any (fun r => r.countryShort = c.countryShort) then st
  else { st with countries := st.countries ++ [{ c with external := ext }] }

/-- `INSERT OR IGNORE INTO states` for one row (`db.go`, `AddStates` loop
body): skipped when `(stateShort, countryShort)` is already present. -/
def insertState (s : State) (ext : Bool) (st : Store) : Store :=
  if st.states.any (fun r => r.stateShort = s.stateShort && r.countryShort = s.countryShort) then st
  else { st with states := st.states ++ [{ s with external := ext }] }

/-- `INSERT OR IGNORE INTO cities` for one row (`db.go`, `AddCities` loop
body): skipped when `(city, stateShort, countryShort)` is already present;
otherwise the row receives the next surrogate id. -/
def insertCity (c : City) (ext : Bool) (st : Store) : Store :=
  if st.cities.any (fun r =>
      r.city = c.city && r.stateShort = c.stateShort && r.countryShort = c.countryShort) then st
  else { st with cities := st.cities ++ [{ c with id := st.nextCityId, external := ext }],
                 nextCityId := st.nextCityId + 1 }

/-- `INSERT OR IGNORE INTO zips` for one row (`db.go`, `AddZips` loop body). -/
def insertZip (z : Zip) (ext : Bool) (st : Store) : Store :=
  if st.zips.any (fun r => r.zip = z.zip && r.countryShort = z.countryShort) then st
  else { st with zips := st.zips ++ [{ z with id := st.nextZipId, external := ext }],
                 nextZipId := st.nextZipId + 1 }

/-- `INSERT OR IGNORE INTO queries` for one row (`db.go`, `AddQueries` loop
body): `used` is always inserted as `false`. -/
def insertQuery (q : String) (ext : Bool) (st : Store) : Store :=
  if st.queries.any (fun r => r.query = q) then st
  else { st with queries := st.queries ++ [⟨st.nextQueryId, q, false, ext⟩],
                 nextQueryId := st.nextQueryId + 1 }

/-- Validation predicate of `db.go` `AddCountries`: a record is rejected when
`countryShort` or `country` is empty. -/
def countryInvalid (c : Country) : Bool :=
  c.countryShort = "" || c.country = ""

/-- `db.go`, `AddCountries`: validate the whole batch before any write, then
insert each record inside one transaction. -/
def addCountries (cs : List Country) (ext : Bool) (st : Store) : Except String Store :=
  if cs.any countryInvalid then
    Except.error "all countries must have countryShort and country"
  else
    Except.ok (cs.foldl (fun acc c => insertCountry c ext acc) st)

/-- Validation predicate of `db.go` `AddStates`. -/
def stateInvalid (s : State) : Bool :=
  s.stateShort = "" || s.state = "" || s.countryShort = ""

/-- `db.go`, `AddStates`. -/
def addStates (ss : List State) (ext : Bool) (st : Store) : Except String Store :=
  if ss.any stateInvalid then
    Except.error "all states must have stateShort, state, and countryShort"
  else
    Except.ok (ss.foldl (fun acc s => insertState s ext acc) st)

/-- Validation predicate of `db.go` `AddCities`. -/
def cityInvalid (c : City) : Bool :=
  c.city = "" || c.stateShort = "" || c.countryShort = ""

/-- `db.go`, `AddCities`. -/
def addCities (cs : List City) (ext : Bool) (st : Store) : Except String Store :=
  if cs.any cityInvalid then
    Except.error "all cities must have city, stateShort, and countryShort"
  else
    Except.ok (cs.foldl (fun acc c => insertCity c ext acc) st)

/-- Validation predicate of `db.go` `AddZips`. -/
def zipInvalid (z : Zip) : Bool :=
  z.zip = "" || z.countryShort = ""

/-- `db.go`, `AddZips`. -/
def addZips (zs : List Zip) (ext : Bool) (st : Store) : Except String Store :=
  if zs.any zipInvalid then
    Except.error "all zips must have zip and countryShort"
  else
    Except.ok (zs.foldl (fun acc z => insertZip z ext acc) st)

/-- `db.go`, `AddQueries`. -/
def addQueries (qs : List String) (ext : Bool) (st : Store) : Except String Store :=
  if qs.any (fun q => q = "") then
    Except.error "all queries must be non-empty strings"
  else
    Except.ok (qs.foldl (fun acc q => insertQuery q ext acc) st)

/-- `db.go`, `ClearQueries`: `DELETE FROM queries WHERE external = 1`. -/
def clearQueries (st : Store) : Store :=
  { st with queries := st.queries.filter (fun q => q.external = false) }

/-- `db.go`, `GetQueries`: all rows of `queries`. -/
def getQueries (st : Store) : List Query :=
  st.queries

/-- `db.go`, `GetCountries`: all country rows, or the single row matching the
target code when the target is not `"all"`. -/
def getCountries (target : String) (st : Store) : List Country :=
  if target = "all" then st.countries
  else st.countries.filter (fun c => c.countryShort = target)

/-- `db.go`, `GetStates`: rows whose `countryShort` is in the given list;
empty input short-circuits to no rows. -/
def getStates (countryShorts : List String) (st : Store) : List State :=
  if countryShorts.isEmpty then []
  else st.states.filter (fun s => countryShorts.contains s.countryShort)

/-- `db.go`, `GetCities`: with a nonempty state list the `WHERE` clause is a
disjunction of `(stateShort, countryShort)` pairs drawn from the two lists;
otherwise it filters on `countryShort` alone; both lists empty yields no
rows.  (The Go code builds malformed SQL when the state list is nonempty and
the country list is empty; that path is unreachable from the state manager,
which derives the state list from the country list.) -/
def getCities (countryShorts stateShorts : List String) (st : Store) : List City :=
  if countryShorts.isEmpty && stateShorts.isEmpty then []
  else if !stateShorts.isEmpty then
    st.cities.filter (fun c =>
      stateShorts.contains c.stateShort && countryShorts.contains c.countryShort)
  else
    st.cities.filter (fun c => countryShorts.contains c.countryShort)

/-- `db.go`, `GetZips`. -/
def getZips (countryShorts : List String) (st : Store) : List Zip :=
  if countryShorts.isEmpty then []
  else st.zips.filter (fun z => countryShorts.contains z.countryShort)

/-- `db.go`, `SaveNavSession`: insert one session row; the `AUTOINCREMENT`
id is assigned by the store. -/
def saveNavSession (s : NavSession) (st : Store) : Store :=
  { st with sessions := st.sessions ++ [{ s with id := st.nextSessionId }],
            nextSessionId := st.nextSessionId + 1 }

/-- `db.go`, `UpdateNavSession` with the update map `{"page": …}` (the only
shape the state manager uses besides `{"completed": true}`). -/
def updateNavSessionPage (id : Nat) (p : PageCol) (st : Store) : Store :=
  { st with sessions := st.sessions.map (fun s => if s.id = id then { s with page := p } else s) }

/-- `db.go`, `UpdateNavSession` with the update map `{"completed": true}`. -/
def updateNavSessionCompleted (id : Nat) (st : Store) : Store :=
  { st with sessions :=
      st.sessions.map (fun s => if s.id = id then { s with completed := true } else s) }

/-- `db.go`, `GetCurrentNavSession`: first row with `completed = 0`
(`LIMIT 1` in rowid order); `none` models `sql.ErrNoRows`. -/
def getCurrentNavSession (st : Store) : Option NavSession :=
  st.sessions.find? (fun s => !s.completed)

/-- `db.go`, `ResetNavSessions`: `DELETE FROM nav_sessions`. -/
def resetNavSessions (st : Store) : Store :=
  { st with sessions := [] }

/-- `db.go`, `ResetDatabase`: clear every `used` flag and delete all session
rows, in one transaction. -/
def resetDatabase (st : Store) : Store :=
  { st with
    countries := st.countries.map (fun c => { c with used := false }),
    states := st.states.map (fun s => { s with used := false }),
    cities := st.cities.map (fun c => { c with used := false }),
    zips := st.zips.map (fun z => { z with used := false }),
    queries := st.queries.map (fun q => { q with used := false }),
    sessions := [] }

/-- `db.go`, `CountTotal`: `SELECT COUNT(*) FROM countries`. -/
def countTotal (st : Store) : Nat :=
  st.countries.length

end DB

/-- The in-process state manager together with its backing store
(`stateManager.go`, `StateManager`; the `db` field is the SQLite handle). -/
structure StateManager where
  db : Store
  format : String
  targetCountry : String
  currentNav : Option NavResponse
  countries : List Country
  states : List State
  cities : List City
  zips : List Zip
  queries : List Query
  currentIndex : Nat
  navOrder : List Nav
deriving DecidableEq, Repr

namespace StateManager

/-- Kernel-computable model of Go `strings.HasPrefix` (Lean's
`String.startsWith` does not reduce in the kernel). -/
def hasQueryPre (s : String) : Bool :=
  List.isPrefixOf "query-".data s.data

/-- Kernel-computable model of Go `sort.Ints` (ascending insertion sort; on
`Int` lists every correct ascending sort produces the identical list). -/
def insertSorted (x : Int) : List Int → List Int
  | [] => [x]
  | y :: ys => if x ≤ y then x :: y :: ys else y :: insertSorted x ys

/-- Ascending sort of an `Int` list, modelling `sort.Ints`. -/
def sortInts (l : List Int) : List Int :=
  l.foldr insertSorted []

/-- `stateManager.go`, `getStatesByCountry`. -/
def getStatesByCountry (sm : StateManager) (countryShort : String) : List State :=
  sm.states.filter (fun s => s.countryShort = countryShort)

/-- `stateManager.go`, `getCitiesByCountry`. -/
def getCitiesByCountry (sm : StateManager) (countryShort : String) : List City :=
  sm.cities.filter (fun c => c.countryShort = countryShort)

/-- `stateManager.go`, `getZipsByCountry`. -/
def getZipsByCountry (sm : StateManager) (countryShort : String) : List Zip :=
  sm.zips.filter (fun z => z.countryShort = countryShort)

/-- `stateManager.go`, `findStateByShort`: first state in the list with the
given short code. -/
def findStateByShort (stateShort : String) (states : List State) : Option State :=
  states.find? (fun s => s.stateShort = stateShort)

/-- `stateManager.go`, `addNavForQuery`: the navigation entries appended for
one country (and one query, for `query-` formats).  The Go function appends
to `sm.navOrder`; the model returns the appended segment.  Every case sets
`Nav.Country` to the country's short code. -/
def addNavForQuery (format : String) (query : Option Query) (country : Country)
    (states : List State) (cities : List City) (zips : List Zip) : List Nav :=
  match format with
  | "zip" =>
      zips.map (fun zip => { zip := some zip.zip, country := some country.countryShort })
  | "zip-country" =>
      zips.map (fun zip =>
        { zip := some zip.zip, country := some country.countryShort,
          countryShort := some country.countryShort })
  | "query-zip" =>
      match query with
      | some q => zips.map (fun zip =>
          { query := some q.query, zip := some zip.zip, country := some country.countryShort })
      | none => []
  | "query-zip-country" =>
      match query with
      | some q => zips.map (fun zip =>
          { query := some q.query, zip := some zip.zip, country := some country.countryShort,
            countryShort := some country.countryShort })
      | none => []
  | "city" =>
      cities.map (fun city => { city := some city.city, country := some country.countryShort })
  | "city-state" =>
      cities.filterMap (fun city =>
        (findStateByShort city.stateShort states).map (fun state =>
          { city := some city.city, state := some state.state,
            stateShort := some state.stateShort, country := some country.countryShort }))
  | "city-state-country" =>
      cities.filterMap (fun city =>
        (findStateByShort city.stateShort states).map (fun state =>
          { city := some city.city, state := some state.state,
            stateShort := some state.stateShort, country := some country.countryShort,
            countryShort := some country.countryShort }))
  | "query-city" =>
      match query with
      | some q => cities.map (fun city =>
          { query := some q.query, city := some city.city, country := some country.countryShort })
      | none => []
  | "query-city-state" =>
      match query with
      | some q => cities.filterMap (fun city =>
          (findStateByShort city.stateShort states).map (fun state =>
            { query := some q.query, city := some city.city, state := some state.state,
              stateShort := some state.stateShort, country := some country.countryShort }))
      | none => []
  | "query-city-state-country" =>
      match query with
      | some q => cities.filterMap (fun city =>
          (findStateByShort city.stateShort states).map (fun state =>
            { query := some q.query, city := some city.city, state := some state.state,
              stateShort := some state.stateShort, country := some country.countryShort,
              countryShort := some country.countryShort }))
      | none => []
  | "state" =>
      states.map (fun state =>
        { state := some state.state, stateShort := some state.stateShort,
          country := some country.countryShort })
  | "state-country" =>
      states.map (fun state =>
        { state := some state.state, stateShort := some state.stateShort,
          country := some country.countryShort, countryShort := some country.countryShort })
  | "query-state" =>
      match query with
      | some q => states.map (fun state =>
          { query := some q.query, state := some state.state,
            stateShort := some state.stateShort, country := some country.countryShort })
      | none => []
  | "query-state-country" =>
      match query with
      | some q => states.map (fun state =>
          { query := some q.query, state := some state.state,
            stateShort := some state.stateShort, country := some country.countryShort,
            countryShort := some country.countryShort })
      | none => []
  | "query-county" =>
      match query with
      | some q => cities.filterMap (fun city =>
          city.county.map (fun county =>
            { query := some q.query, county := some county,
              country := some country.countryShort }))
      | none => []
  | "query" =>
      match query with
      | some q => [{ query := some q.query, country := some country.countryShort }]
      | none => []
  | "county" =>
      cities.filterMap (fun city =>
        city.county.map (fun county =>
          { county := some county, country := some country.countryShort }))
  | _ => []

/-- The navigation entries one country contributes (`generateNavOrder` loop
body): for `query-` formats, one `addNavForQuery` block per stored query in
list order; otherwise a single block with no query. -/
def navForCountry (sm : StateManager) (country : Country) : List Nav :=
  let countryStates := getStatesByCountry sm country.countryShort
  let countryCities := getCitiesByCountry sm country.countryShort
  let countryZips := getZipsByCountry sm country.countryShort
  if hasQueryPre sm.format then
    sm.queries.flatMap (fun q =>
      addNavForQuery sm.format (some q) country countryStates countryCities countryZips)
  else
    addNavForQuery sm.format none country countryStates countryCities countryZips

/-- `stateManager.go`, `generateNavOrder`: iterate `sm.countries` in list
order (the store's row order; no sort is applied) appending each country's
entries. -/
def generateNavOrder (sm : StateManager) : List Nav :=
  sm.countries.flatMap (navForCountry sm)

/-- `stateManager.go`, `findCountry`: first in-memory country with the given
short code. -/
def findCountry (sm : StateManager) (countryShort : String) : Option Country :=
  sm.countries.find? (fun c => c.countryShort = countryShort)

/-- `stateManager.go`, `findQuery` (by id). -/
def findQuery (sm : StateManager) (id : Nat) : Option Query :=
  sm.queries.find? (fun q => q.id = id)

/-- `stateManager.go`, `findZip` (by id). -/
def findZip (sm : StateManager) (id : Nat) : Option Zip :=
  sm.zips.find? (fun z => z.id = id)

/-- `stateManager.go`, `findCity` (by id). -/
def findCity (sm : StateManager) (id : Nat) : Option City :=
  sm.cities.find? (fun c => c.id = id)

/-- `stateManager.go`, `findState`: first in-memory state with the given
short code (the country is NOT part of the lookup). -/
def findState (sm : StateManager) (stateShort : String) : Option State :=
  sm.states.find? (fun s => s.stateShort = stateShort)

/-- `stateManager.go`, `navMatches`: value equality on query text, zip code,
city name, state name and country code — a field matches when both sides are
absent or both are present with equal values. -/
def navMatches (nav : Nav) (country : Option Country) (query : Option Query)
    (zip : Option Zip) (city : Option City) (state : Option State) : Bool :=
  let queryMatch := match nav.query, query with
    | none, none => true
    | some nq, some q => nq = q.query
    | _, _ => false
  let zipMatch := match nav.zip, zip with
    | none, none => true
    | some nz, some z => nz = z.zip
    | _, _ => false
  let cityMatch := match nav.city, city with
    | none, none => true
    | some nc, some c => nc = c.city
    | _, _ => false
  let stateMatch := match nav.state, state with
    | none, none => true
    | some ns, some s => ns = s.state
    | _, _ => false
  let countryMatch := match nav.country, country with
    | none, none => true
    | some ncy, some cy => ncy = cy.countryShort
    | _, _ => false
  queryMatch && zipMatch && cityMatch && stateMatch && countryMatch

/-- `stateManager.go`, `findNavIndex`: index of the first value-matching step
in the expanded sequence, or 0 when none matches. -/
def findNavIndex (sm : StateManager) (country : Option Country) (query : Option Query)
    (zip : Option Zip) (city : Option City) (state : Option State) : Nat :=
  match sm.navOrder.findIdx? (fun nav => navMatches nav country query zip city state) with
  | some i => i
  | none => 0

/-- `stateManager.go`, `generatePlaceholder`: query first, then exactly one
of city / zip / state / county in that priority order, joined by `##`;
`"Unknown"` when no part is populated. -/
def generatePlaceholder (nav : Nav) : String :=
  let geoPart : List String :=
    match nav.city with
    | some c => [c]
    | none => match nav.zip with
      | some z => [z]
      | none => match nav.state with
        | some s => [s]
        | none => match nav.county with
          | some cty => [cty]
          | none => []
  let parts : List String :=
    (match nav.query with | some q => [q] | none => []) ++ geoPart
  match parts with
  | [] => "Unknown"
  | [p] => p
  | p :: rest => p ++ "##" ++ String.intercalate "##" rest

/-- Decoding of the persisted page column in `buildNavResponse`
(`stateManager.go` lines 586-593): the `completed` sentinel maps to the
in-memory sentinel, the empty string to `nil`, and any other string is
`json.Unmarshal`led into a `PageNav` with errors ignored (a non-object string
leaves the zero value `{pages: [], total: 0}`). -/
def unmarshalPage : PageCol → Option PageVal
  | PageCol.completedStr => some PageVal.completed
  | PageCol.empty => none
  | PageCol.pageNav p => some (PageVal.pages p)
  | PageCol.quoted _ => some (PageVal.pages ⟨[], 0⟩)

/-- Encoding of the in-memory page field in `saveCurrentSession`
(`stateManager.go` lines 703-707): `nil` maps to the empty string and
anything else is `json.Marshal`led — a `PageNav` becomes the JSON object, and
the string sentinel would become a quoted JSON string (not the bare
sentinel). -/
def marshalPage : Option PageVal → PageCol
  | none => PageCol.empty
  | some (PageVal.pages p) => PageCol.pageNav p
  | some PageVal.completed => PageCol.quoted "completed"

/-- `stateManager.go`, `buildNavResponse`: assemble the response for a
restored session from the resolved entities.  Note the source quirk: the
`Nav.Country` field receives the country's full display name here (the
expansion path stores the short code). -/
def buildNavResponse (sm : StateManager) (session : NavSession) (country : Option Country)
    (query : Option Query) (zip : Option Zip) (city : Option City)
    (state : Option State) : NavResponse :=
  let nav : Nav :=
    { query := query.map (fun q => q.query)
      zip := zip.map (fun z => z.zip)
      city := city.map (fun c => c.city)
      county := match city with | some c => c.county | none => none
      state := state.map (fun s => s.state)
      stateShort := state.map (fun s => s.stateShort)
      country := country.map (fun c => c.country)
      countryShort := country.map (fun c => c.countryShort) }
  { format := session.format
    nav := nav
    country := (country.map (fun c => c.countryShort)).getD ""
    placeholder := generatePlaceholder nav
    page := unmarshalPage session.page
    hasNext := decide (sm.currentIndex < sm.navOrder.length - 1) }

/-- `stateManager.go`, `buildNavResponseFromIndex`: `none` past the end of
the sequence; otherwise the step at the index with an empty page field. -/
def buildNavResponseFromIndex (sm : StateManager) (index : Nat) : Option NavResponse :=
  if h : index < sm.navOrder.length then
    let nav := sm.navOrder.get ⟨index, h⟩
    let country := findCountry sm ((nav.country).getD "")
    some { format := sm.format
           nav := nav
           country := (country.map (fun c => c.countryShort)).getD ""
           placeholder := generatePlaceholder nav
           page := none
           hasNext := decide (index < sm.navOrder.length - 1) }
  else none

/-- `stateManager.go`, `findQueryByText`: first in-memory query with the
given text. -/
def findQueryByText (sm : StateManager) (text : String) : Option Query :=
  sm.queries.find? (fun q => q.query = text)

/-- `stateManager.go`, `findZipByText`: first in-memory zip with the given
code — the country is NOT part of the lookup. -/
def findZipByText (sm : StateManager) (text : String) : Option Zip :=
  sm.zips.find? (fun z => z.zip = text)

/-- `stateManager.go`, `findCityByText`: first in-memory city with the given
name — state and country are NOT part of the lookup. -/
def findCityByText (sm : StateManager) (text : String) : Option City :=
  sm.cities.find? (fun c => c.city = text)

/-- `stateManager.go`, `markEntitiesAsUsed`: five sequential `UPDATE … SET
used = 1` statements, one per resolved entity. -/
def markEntitiesAsUsed (country : Option Country) (query : Option Query) (zip : Option Zip)
    (city : Option City) (state : Option State) (st : Store) : Store :=
  let st1 := match country with
    | some c => { st with countries := st.countries.map (fun r =>
        if r.countryShort = c.countryShort then { r with used := true } else r) }
    | none => st
  let st2 := match query with
    | some q => { st1 with queries := st1.queries.map (fun r =>
        if r.id = q.id then { r with used := true } else r) }
    | none => st1
  let st3 := match zip with
    | some z => { st2 with zips := st2.zips.map (fun r =>
        if r.id = z.id then { r with used := true } else r) }
    | none => st2
  let st4 := match city with
    | some c => { st3 with cities := st3.cities.map (fun r =>
        if r.id = c.id then { r with used := true } else r) }
    | none => st3
  match state with
  | some s => { st4 with states := st4.states.map (fun r =>
      if r.stateShort = s.stateShort && r.countryShort = s.countryShort
      then { r with used := true } else r) }
  | none => st4

/-- `stateManager.go`, `saveCurrentSession`: resolve the current step's
entities (query/zip/city by first text match, state by short code, country by
code), insert a fresh non-completed session row for them, then mark exactly
those entities used. -/
def saveCurrentSession (sm : StateManager) : StateManager :=
  match sm.currentNav with
  | none => sm
  | some cn =>
    let country := findCountry sm cn.country
    let query := cn.nav.query.bind (fun t => findQueryByText sm t)
    let zip := cn.nav.zip.bind (fun t => findZipByText sm t)
    let city := cn.nav.city.bind (fun t => findCityByText sm t)
    let state := cn.nav.stateShort.bind (fun ss => findState sm ss)
    let session : NavSession :=
      { id := 0
        format := cn.format
        countryShort := (country.map (fun c => c.countryShort)).getD ""
        queryId := query.map (fun q => q.id)
        zipId := zip.map (fun z => z.id)
        cityId := city.map (fun c => c.id)
        stateShort := state.map (fun s => s.stateShort)
        page := marshalPage cn.page
        completed := false
        external := true }
    let st1 := DB.saveNavSession session sm.db
    let st2 := markEntitiesAsUsed country query zip city state st1
    { sm with db := st2 }

/-- `stateManager.go`, `restoreOrStartSession`: with an active session,
resolve its recorded entities and re-locate the cursor by value equality
(`findNavIndex`), writing nothing; with no active session, build the step at
index 0 and, when it exists, immediately persist a session for it. -/
def restoreOrStartSession (sm : StateManager) : StateManager :=
  match DB.getCurrentNavSession sm.db with
  | some session =>
    let country := findCountry sm session.countryShort
    let query := session.queryId.bind (fun i => findQuery sm i)
    let zip := session.zipId.bind (fun i => findZip sm i)
    let city := session.cityId.bind (fun i => findCity sm i)
    let state := session.stateShort.bind (fun ss => findState sm ss)
    let idx := findNavIndex sm country query zip city state
    let sm1 := { sm with currentIndex := idx }
    { sm1 with currentNav := some (buildNavResponse sm1 session country query zip city state) }
  | none =>
    let nav0 := buildNavResponseFromIndex sm 0
    let sm1 := { sm with currentNav := nav0 }
    match nav0 with
    | some _ => saveCurrentSession sm1
    | none => sm1

/-- The guard of `GetNextNav` (`session != nil && !session.Completed`). -/
def sessionIsActive : Option NavSession → Bool
  | some s => !s.completed
  | none => false

/-- `stateManager.go`, `GetNextNav`: a no-op returning the unchanged current
response while an active (non-completed) session exists; otherwise increment
the index, rebuild the step there (or yield `none` past the end) and, when a
step exists, persist a fresh session for it. -/
def getNextNav (sm : StateManager) : Option NavResponse × StateManager :=
  let session := DB.getCurrentNavSession sm.db
  if sessionIsActive session then
    (sm.currentNav, sm)
  else
    let idx := sm.currentIndex + 1
    let sm1 := { sm with currentIndex := idx }
    let nav := buildNavResponseFromIndex sm1 idx
    let sm2 := { sm1 with currentNav := nav }
    match nav with
    | some _ => (nav, saveCurrentSession sm2)
    | none => (none, sm2)

/-- `stateManager.go`, `SetPageNav`: a no-op when there is no current step;
otherwise set the in-memory page field and, when an active session exists,
persist the new pagination blob. -/
def setPageNav (totalPages : Int) (pages : List Int) (sm : StateManager) : StateManager :=
  match sm.currentNav with
  | none => sm
  | some cn =>
    let pageNav : PageNav := { pages := pages, total := totalPages }
    let sm1 := { sm with currentNav := some { cn with page := some (PageVal.pages pageNav) } }
    match DB.getCurrentNavSession sm1.db with
    | some session =>
      { sm1 with db := DB.updateNavSessionPage session.id (PageCol.pageNav pageNav) sm1.db }
    | none => sm1

/-- `stateManager.go`, `MarkComplete`: when an active session exists, set its
completed flag and replace the in-memory page field by the sentinel. -/
def markComplete (sm : StateManager) : StateManager :=
  match DB.getCurrentNavSession sm.db with
  | some session =>
    let st1 := DB.updateNavSessionCompleted session.id sm.db
    { sm with db := st1,
              currentNav := sm.currentNav.map (fun cn => { cn with page := some PageVal.completed }) }
  | none => sm

/-- `stateManager.go`, `MarkPageAsDone`: a no-op when there is no current
step, the step is already completed, the page field is not a `PageNav`, or
the page is already in the set.  Otherwise a LOCAL COPY of the `PageNav` is
extended and sorted and written to the session row — the Go code never writes
the extended copy back to `sm.currentNav.Page`, so the in-memory set is
unchanged (this models the source faithfully).  When the local copy's size
reaches the declared total, `MarkComplete` runs. -/
def markPageAsDone (page : Int) (sm : StateManager) : StateManager :=
  match sm.currentNav with
  | none => sm
  | some cn =>
    if cn.page = some PageVal.completed then sm
    else
      match cn.page with
      | some (PageVal.pages pageNav) =>
        if pageNav.pages.contains page then sm
        else
          let pages1 := sortInts (pageNav.pages ++ [page])
          let pageNav1 : PageNav := { pages := pages1, total := pageNav.total }
          match DB.getCurrentNavSession sm.db with
          | some session =>
            let sm1 := { sm with
              db := DB.updateNavSessionPage session.id (PageCol.pageNav pageNav1) sm.db }
            if (pages1.length : Int) = pageNav1.total then markComplete sm1 else sm1
          | none => sm
      | _ => sm

/-- `stateManager.go`, `refreshData`: re-read countries, states and cities
from the store (zips and queries are NOT re-read) and re-expand the
sequence. -/
def refreshData (sm : StateManager) : StateManager :=
  let countries := DB.getCountries sm.targetCountry sm.db
  let countryShorts := countries.map (fun c => c.countryShort)
  let states := DB.getStates countryShorts sm.db
  let stateShorts := states.map (fun s => s.stateShort)
  let cities := DB.getCities countryShorts stateShorts sm.db
  let sm1 := { sm with countries := countries, states := states, cities := cities }
  { sm1 with navOrder := generateNavOrder sm1 }

/-- `stateManager.go`, `AddSearchQueries`: validate-and-insert at the store,
then re-read queries and re-expand; an empty batch is a no-op. -/
def addSearchQueries (queries : List String) (sm : StateManager) : Except String StateManager :=
  if queries.isEmpty then Except.ok sm
  else
    match DB.addQueries queries true sm.db with
    | Except.error e => Except.error e
    | Except.ok st1 =>
      let sm1 := { sm with db := st1, queries := DB.getQueries st1 }
      Except.ok { sm1 with navOrder := generateNavOrder sm1 }

/-- `stateManager.go`, `ClearSearchQueries`: delete the external query rows,
empty the in-memory list and re-expand. -/
def clearSearchQueries (sm : StateManager) : StateManager :=
  let sm1 := { sm with db := DB.clearQueries sm.db, queries := [] }
  { sm1 with navOrder := generateNavOrder sm1 }

/-- `stateManager.go`, `ResetNav`: delete all session rows, reset the cursor
to 0, drop the current response, then restore (which starts a fresh session
when the sequence is nonempty).  Usage flags are NOT touched here. -/
def resetNav (sm : StateManager) : StateManager :=
  restoreOrStartSession
    { sm with db := DB.resetNavSessions sm.db, currentIndex := 0, currentNav := none }

/-- Input record of the public `AddCities` (`stateManager.go` lines 980-985). -/
structure CityInput where
  city : String
  state : String
  stateShort : String
  countryShort : String
deriving DecidableEq, Repr

/-- `stateManager.go`, `StateManager.AddCities`: reject the whole batch when
any record misses a required field, before any write; otherwise insert (as
external rows) and refresh. -/
def addCitiesSM (cities : List CityInput) (sm : StateManager) : Except String StateManager :=
  if cities.isEmpty then Except.ok sm
  else if cities.any (fun c =>
      c.city = "" || c.state = "" || c.stateShort = "" || c.countryShort = "") then
    Except.error "all cities must have city, state, stateShort, and countryShort"
  else
    let dbCities : List City := cities.map (fun c =>
      { id := 0, city := c.city, stateShort := c.stateShort,
        countryShort := c.countryShort, county := none, used := false, external := true })
    match DB.addCities dbCities true sm.db with
    | Except.error e => Except.error e
    | Except.ok st1 => Except.ok (refreshData { sm with db := st1 })

/-- Input record of the public `AddStates` (`stateManager.go` lines 1015-1020). -/
structure StateInput where
  state : String
  stateShort : String
  county : Option String
  countryShort : String
deriving DecidableEq, Repr

/-- `stateManager.go`, `StateManager.AddStates`. -/
def addStatesSM (states : List StateInput) (sm : StateManager) : Except String StateManager :=
  if states.isEmpty then Except.ok sm
  else if states.any (fun s => s.state = "" || s.stateShort = "" || s.countryShort = "") then
    Except.error "all states must have state, stateShort, and countryShort"
  else
    let dbStates : List State := states.map (fun s =>
      { state := s.state, stateShort := s.stateShort, countryShort := s.countryShort,
        used := false, external := true })
    match DB.addStates dbStates true sm.db with
    | Except.error e => Except.error e
    | Except.ok st1 => Except.ok (refreshData { sm with db := st1 })

/-- Input record of the public `AddCountries` (`stateManager.go` lines 1050-1053). -/
structure CountryInput where
  country : String
  countryShort : String
deriving DecidableEq, Repr

/-- `stateManager.go`, `StateManager.AddCountries`. -/
def addCountriesSM (countries : List CountryInput) (sm : StateManager) : Except String StateManager :=
  if countries.isEmpty then Except.ok sm
  else if countries.any (fun c => c.countryShort = "" || c.country = "") then
    Except.error "all countries must have countryShort and country name"
  else
    let dbCountries : List Country := countries.map (fun c =>
      { country := c.country, countryShort := c.countryShort, used := false, external := true })
    match DB.addCountries dbCountries true sm.db with
    | Except.error e => Except.error e
    | Except.ok st1 => Except.ok (refreshData { sm with db := st1 })

/-- `stateManager.go`, `StateManager.ResetDatabase`: clear usage flags and
sessions at the store, then refresh. -/
def resetDatabaseSM (sm : StateManager) : StateManager :=
  refreshData { sm with db := DB.resetDatabase sm.db }

/-- Bootstrap dataset shape (`postinstall.go`, `LocationData`): Go maps are
modelled as association lists in one fixed traversal order (Go map iteration
order is unspecified; the session-level claims do not depend on it). -/
structure LocationData where
  cityData : List (String × List (String × List String))
  zipData : List (String × List String)
deriving DecidableEq, Repr

/-- The entity lists `setDefault` accumulates from the bootstrap city data
(`stateManager.go` lines 144-183): composite keys are split on `#` and `##`
and keys that do not split in exactly two parts are skipped. -/
def cityDataEntities (cityData : List (String × List (String × List String))) :
    List Country × List State × List City :=
  cityData.foldl (fun acc entry =>
    match (entry.1).splitOn "#" with
    | [countryShort, countryName] =>
      let accCountries := acc.1 ++ [⟨countryName, countryShort, false, false⟩]
      let inner := entry.2.foldl (fun acc2 stEntry =>
        match (stEntry.1).splitOn "##" with
        | [stateShort, stateName] =>
          (acc2.1 ++ [⟨stateName, stateShort, countryShort, false, false⟩],
           acc2.2 ++ stEntry.2.map (fun cityName =>
             ⟨0, cityName, stateShort, countryShort, none, false, false⟩))
        | _ => acc2) (acc.2.1, acc.2.2)
      (accCountries, inner.1, inner.2)
    | _ => acc) ([], [], [])

/-- The zip list `setDefault` accumulates (`stateManager.go` lines 186-195). -/
def zipDataEntities (zipData : List (String × List String)) : List Zip :=
  zipData.foldl (fun acc entry =>
    acc ++ entry.2.map (fun z => ⟨0, z, entry.1, false, false⟩)) []

/-- `stateManager.go`, `setDefault`: populate the store from the bootstrap
dataset only when the country table is empty; the four bulk adds run in
sequence and an error aborts the remaining ones (the committed prefix
stays).  The boolean is `false` when an add failed (`Init` then aborts). -/
def setDefault (ld : LocationData) (st : Store) : Store × Bool :=
  if DB.countTotal st > 0 then (st, true)
  else
    let ents := cityDataEntities ld.cityData
    let zs := zipDataEntities ld.zipData
    match DB.addCountries ents.1 false st with
    | Except.error _ => (st, false)
    | Except.ok st1 =>
      match DB.addStates ents.2.1 false st1 with
      | Except.error _ => (st1, false)
      | Except.ok st2 =>
        match DB.addCities ents.2.2 false st2 with
        | Except.error _ => (st2, false)
        | Except.ok st3 =>
          match DB.addZips zs false st3 with
          | Except.error _ => (st3, false)
          | Except.ok st4 => (st4, true)

/-- `stateManager.go`, `Init`: record format and target, bootstrap an empty
store, load the entity lists, reset the cursor to 0, expand the sequence and
resolve the position via `restoreOrStartSession`.  A bootstrap failure
returns early with only format/target mutated. -/
def initSM (ld : LocationData) (options : InitOptions) (sm : StateManager) : StateManager :=
  let sm0 := { sm with format := options.format, targetCountry := options.targetCountry }
  let boot := setDefault ld sm0.db
  if boot.2 then
    let st1 := boot.1
    let countries := DB.getCountries options.targetCountry st1
    let countryShorts := countries.map (fun c => c.countryShort)
    let states := DB.getStates countryShorts st1
    let stateShorts := states.map (fun s => s.stateShort)
    let cities := DB.getCities countryShorts stateShorts st1
    let zips := DB.getZips countryShorts st1
    let queries := DB.getQueries st1
    let sm1 := { sm0 with
      db := st1
      countries := countries
      states := states
      cities := cities
      zips := zips
      queries := queries
      currentIndex := 0 }
    let sm2 := { sm1 with navOrder := generateNavOrder sm1 }
    restoreOrStartSession sm2
  else
    { sm0 with db := boot.1 }

end StateManager

/-! ## Generic helper lemmas -/

/-- A map whose function fixes every listed element under the key test leaves
membership intact. -/
theorem mem_map_self {α : Type} {l : List α} {f : α → α} {x : α}
    (hx : x ∈ l) (hfix : f x = x) : x ∈ l.map f := by
  have := List.mem_map_of_mem f hx
  rwa [hfix] at this

/-- A map of a constant function over a list is a `replicate`. -/
theorem map_const_of_mem {α β : Type} {l : List α} {f : α → β} {b : β}
    (h : ∀ x ∈ l, f x = b) : l.map f = List.replicate l.length b := by
  induction l with
  | nil => rfl
  | cons a as ih =>
    simp only [List.map_cons, List.length_cons, List.replicate_succ]
    exact congrArg₂ List.cons (h a (List.mem_cons_self a as))
      (ih (fun x hx => h x (List.mem_cons_of_mem a hx)))

/-- Congruence for `flatMap` under pointwise equality on members. -/
theorem flatMap_congr_mem {α β : Type} {l : List α} {f g : α → List β}
    (h : ∀ x ∈ l, f x = g x) : l.flatMap f = l.flatMap g := by
  induction l with
  | nil => rfl
  | cons a as ih =>
    simp only [List.flatMap_cons]
    exact congrArg₂ List.append (h a (List.mem_cons_self a as))
      (ih (fun x hx => h x (List.mem_cons_of_mem a hx)))

/-! ## Concrete execution scenarios

Small stores driven end-to-end through `initSM` and the public operations,
used to evaluate the model at specific inputs. -/

open StateManager

/-- An empty bootstrap dataset (the bootstrap only runs on an empty country
table, which none of the scenarios has). -/
def emptyLD : LocationData := ⟨[], []⟩

/-- A state manager as `NewStateManager` leaves it, pointed at the given
store contents. -/
def freshSM (st : Store) : StateManager :=
  { db := st, format := "", targetCountry := "all", currentNav := none,
    countries := [], states := [], cities := [], zips := [], queries := [],
    currentIndex := 0, navOrder := [] }

/-- Store for the pagination scenario: one country, one zip, no sessions. -/
def pagStore : Store :=
  { countries := [⟨"United States", "US", false, false⟩]
    states := []
    cities := []
    zips := [⟨1, "90001", "US", false, false⟩]
    queries := []
    sessions := []
    nextCityId := 1, nextZipId := 2, nextQueryId := 1, nextSessionId := 1 }

/-- The pagination scenario after `Init(zip, all)`: a single-step sequence
with an active session for it. -/
def pagInit : StateManager := initSM emptyLD ⟨"zip", "all"⟩ (freshSM pagStore)

/-- The pagination scenario after `SetPageNav(3, [])` followed by
`MarkPageAsDone(1)`, `MarkPageAsDone(2)`, `MarkPageAsDone(3)`. -/
def pagFinal : StateManager :=
  markPageAsDone 3 (markPageAsDone 2 (markPageAsDone 1 (setPageNav 3 [] pagInit)))

/-- C1: the claim says that with `SetPageNav(3, [])` in force, marking pages
1, 2 and 3 done completes the step and sets the session's completed flag.
The code contradicts this: `MarkPageAsDone` extends a local copy of the
`PageNav` taken out of `sm.currentNav.Page` and never writes it back, so
each call starts again from the empty in-memory page set; after the three
calls the persisted session still has `completed = false` with the stored
pages reduced to `[3]`, and the in-memory page set is still empty.  (Only
the final write `{pages: [3], total: 3}` survives, and `3 ≠ total` count-wise
never triggers `MarkComplete`.) -/
theorem pagination_marks_lost :
    pagFinal.db.sessions.map (fun s => (s.completed, s.page))
      = [(false, PageCol.pageNav ⟨[3], 3⟩)]
    ∧ pagFinal.currentNav.map (fun cn => cn.page)
      = some (some (PageVal.pages ⟨[], 3⟩))
    ∧ DB.getCurrentNavSession pagFinal.db ≠ none := by
  refine ⟨by decide, by decide, by decide⟩

/-- Store for the country-order scenario: two countries inserted with `US`
before `CA` in row order, one zip each. -/
def ordStore : Store :=
  { countries := [⟨"United States", "US", false, false⟩, ⟨"Canada", "CA", false, false⟩]
    states := []
    cities := []
    zips := [⟨1, "90210", "US", false, false⟩, ⟨2, "10001", "CA", false, false⟩]
    queries := []
    sessions := []
    nextCityId := 1, nextZipId := 3, nextQueryId := 1, nextSessionId := 1 }

/-- The country-order scenario after `Init(zip, all)`. -/
def ordInit : StateManager := initSM emptyLD ⟨"zip", "all"⟩ (freshSM ordStore)

/-- Kernel-computable strict lexicographic order on char lists (Go compares
strings lexicographically by bytes; these codes are ASCII). -/
def charListLt : List Char → List Char → Bool
  | [], [] => false
  | [], _ :: _ => true
  | _ :: _, [] => false
  | a :: as, b :: bs => if a < b then true else if b < a then false else charListLt as bs

/-- Strict lexicographic order on strings via their character lists. -/
def strLt (a b : String) : Bool := charListLt a.data b.data

/-- C2 counterexample: with the countries stored in row order `[US, CA]`,
the expansion lists the `US` step before the `CA` step even though `CA` is
lexicographically smaller — no sort is applied, so the iteration order is
the store's row order, not lexicographic order by country code. -/
theorem navOrder_not_lexicographic :
    ordInit.navOrder.map (fun n => n.country) = [some "US", some "CA"]
    ∧ strLt "CA" "US" = true := by
  refine ⟨by decide, by decide⟩

/-- C5: while the active session is not completed, `GetNextNav` returns the
unchanged current navigation response and leaves the whole state manager —
cursor index, current response and persisted sessions — untouched. -/
theorem advance_noop_when_active (sm : StateManager) (s : NavSession)
    (h : DB.getCurrentNavSession sm.db = some s) (hc : s.completed = false) :
    getNextNav sm = (sm.currentNav, sm) := by
  unfold getNextNav
  rw [h]
  simp [sessionIsActive, hc]

/-- Store with a single active session row, for witnesses. -/
def oneActiveStore : Store :=
  { countries := [⟨"United States", "US", false, false⟩]
    states := [], cities := [], zips := [], queries := []
    sessions := [⟨1, "zip", "US", none, none, none, none, PageCol.empty, false, true⟩]
    nextCityId := 1, nextZipId := 1, nextQueryId := 1, nextSessionId := 2 }

/-- A manager over `oneActiveStore`. -/
def oneActiveSM : StateManager := freshSM oneActiveStore

/-- Witness for C5 at a concrete state with one active session. -/
theorem advance_noop_when_active_witness :
    getNextNav oneActiveSM = (oneActiveSM.currentNav, oneActiveSM) :=
  advance_noop_when_active oneActiveSM
    ⟨1, "zip", "US", none, none, none, none, PageCol.empty, false, true⟩ rfl rfl

/-- C10: with no current navigation step (`currentNav = nil`), `SetPageNav`
and `MarkPageAsDone` succeed as no-ops: the manager, and in particular the
store, is returned unchanged (both Go methods return `nil` on this path
before touching the database). -/
theorem page_ops_noop_without_step (sm : StateManager) (total : Int)
    (pages : List Int) (p : Int) (h : sm.currentNav = none) :
    setPageNav total pages sm = sm ∧ markPageAsDone p sm = sm := by
  constructor
  · unfold setPageNav
    rw [h]
  · unfold markPageAsDone
    rw [h]

/-- Witness for C10 at a concrete state with no current step. -/
theorem page_ops_noop_without_step_witness :
    setPageNav 5 [1] oneActiveSM = oneActiveSM ∧ markPageAsDone 2 oneActiveSM = oneActiveSM :=
  page_ops_noop_without_step oneActiveSM 5 [1] 2 rfl

/-! ## Effect lemmas for `markEntitiesAsUsed` -/

/-- `markEntitiesAsUsed` never touches session rows. -/
theorem mark_sessions (c : Option Country) (q : Option Query) (z : Option Zip)
    (ci : Option City) (stt : Option State) (st : Store) :
    (markEntitiesAsUsed c q z ci stt st).sessions = st.sessions := by
  unfold markEntitiesAsUsed
  cases c <;> cases q <;> cases z <;> cases ci <;> cases stt <;> rfl

/-- The countries table after `markEntitiesAsUsed`. -/
theorem mark_countries (c : Option Country) (q : Option Query) (z : Option Zip)
    (ci : Option City) (stt : Option State) (st : Store) :
    (markEntitiesAsUsed c q z ci stt st).countries =
      match c with
      | some c0 => st.countries.map (fun r =>
          if r.countryShort = c0.countryShort then { r with used := true } else r)
      | none => st.countries := by
  unfold markEntitiesAsUsed
  cases c <;> cases q <;> cases z <;> cases ci <;> cases stt <;> rfl

/-- The queries table after `markEntitiesAsUsed`. -/
theorem mark_queries (c : Option Country) (q : Option Query) (z : Option Zip)
    (ci : Option City) (stt : Option State) (st : Store) :
    (markEntitiesAsUsed c q z ci stt st).queries =
      match q with
      | some q0 => st.queries.map (fun r =>
          if r.id = q0.id then { r with used := true } else r)
      | none => st.queries := by
  unfold markEntitiesAsUsed
  cases c <;> cases q <;> cases z <;> cases ci <;> cases stt <;> rfl

/-- The zips table after `markEntitiesAsUsed`. -/
theorem mark_zips (c : Option Country) (q : Option Query) (z : Option Zip)
    (ci : Option City) (stt : Option State) (st : Store) :
    (markEntitiesAsUsed c q z ci stt st).zips =
      match z with
      | some z0 => st.zips.map (fun r =>
          if r.id = z0.id then { r with used := true } else r)
      | none => st.zips := by
  unfold markEntitiesAsUsed
  cases c <;> cases q <;> cases z <;> cases ci <;> cases stt <;> rfl

/-- The cities table after `markEntitiesAsUsed`. -/
theorem mark_cities (c : Option Country) (q : Option Query) (z : Option Zip)
    (ci : Option City) (stt : Option State) (st : Store) :
    (markEntitiesAsUsed c q z ci stt st).cities =
      match ci with
      | some c0 => st.cities.map (fun r =>
          if r.id = c0.id then { r with used := true } else r)
      | none => st.cities := by
  unfold markEntitiesAsUsed
  cases c <;> cases q <;> cases z <;> cases ci <;> cases stt <;> rfl

/-- The states table after `markEntitiesAsUsed`. -/
theorem mark_states (c : Option Country) (q : Option Query) (z : Option Zip)
    (ci : Option City) (stt : Option State) (st : Store) :
    (markEntitiesAsUsed c q z ci stt st).states =
      match stt with
      | some s0 => st.states.map (fun r =>
          if r.stateShort = s0.stateShort && r.countryShort = s0.countryShort
          then { r with used := true } else r)
      | none => st.states := by
  unfold markEntitiesAsUsed
  cases c <;> cases q <;> cases z <;> cases ci <;> cases stt <;> rfl

/-! ## C9: ClearSearchQueries only deletes external query rows -/

/-- C9: `ClearSearchQueries` deletes exactly the query rows whose external
flag is true — every internal (`external = false`) row survives, every
surviving row is internal and was already present — while the in-memory
query list is emptied and every other table (countries, states, cities,
zips, sessions) is untouched. -/
theorem clear_queries_only_external (sm : StateManager) :
    (∀ q ∈ sm.db.queries, q.external = false → q ∈ (clearSearchQueries sm).db.queries)
    ∧ (∀ q ∈ (clearSearchQueries sm).db.queries, q.external = false ∧ q ∈ sm.db.queries)
    ∧ (clearSearchQueries sm).queries = []
    ∧ (clearSearchQueries sm).db.countries = sm.db.countries
    ∧ (clearSearchQueries sm).db.states = sm.db.states
    ∧ (clearSearchQueries sm).db.cities = sm.db.cities
    ∧ (clearSearchQueries sm).db.zips = sm.db.zips
    ∧ (clearSearchQueries sm).db.sessions = sm.db.sessions := by
  refine ⟨?_, ?_, rfl, rfl, rfl, rfl, rfl, rfl⟩
  · intro q hq hext
    simp [clearSearchQueries, DB.clearQueries, List.mem_filter]
    exact ⟨hq, hext⟩
  · intro q hq
    simp [clearSearchQueries, DB.clearQueries, List.mem_filter] at hq
    exact ⟨hq.2, hq.1⟩

/-- Store with one internal and one external query row. -/
def twoQueriesStore : Store :=
  { countries := [⟨"United States", "US", false, false⟩]
    states := [], cities := [], zips := []
    queries := [⟨1, "Realtor", false, false⟩, ⟨2, "Dentist", false, true⟩]
    sessions := []
    nextCityId := 1, nextZipId := 1, nextQueryId := 3, nextSessionId := 1 }

/-- A manager over `twoQueriesStore`. -/
def twoQueriesSM : StateManager := freshSM twoQueriesStore

/-- Witness for C9: the internal query row survives `ClearSearchQueries`. -/
theorem clear_queries_only_external_witness :
    (⟨1, "Realtor", false, false⟩ : Query) ∈ (clearSearchQueries twoQueriesSM).db.queries :=
  (clear_queries_only_external twoQueriesSM).1 ⟨1, "Realtor", false, false⟩ (by decide) rfl

/-! ## C7: ResetNav clears sessions but not usage flags -/

/-- Store for the reset scenario: one country and two used zips. -/
def resetStore : Store :=
  { countries := [⟨"United States", "US", true, false⟩]
    states := []
    cities := []
    zips := [⟨1, "11111", "US", true, false⟩, ⟨2, "22222", "US", true, false⟩]
    queries := []
    sessions := []
    nextCityId := 1, nextZipId := 3, nextQueryId := 1, nextSessionId := 1 }

/-- The reset scenario after `Init(zip, all)` (session 1 active for step 0). -/
def resetInit : StateManager := initSM emptyLD ⟨"zip", "all"⟩ (freshSM resetStore)

/-- The reset scenario after `ResetNav`. -/
def resetAfter : StateManager := resetNav resetInit

/-- C7 counterexample: the claim says `ResetNav` clears the used flags on
all entities, but after `ResetNav` both zips (in particular zip 2, which is
not part of the restarted step 0) and the country still carry `used = true` —
`ResetNav` only deletes session rows (clearing flags is `ResetDatabase`'s
job).  The session table and cursor are restarted as claimed. -/
theorem resetNav_keeps_used_flags :
    resetAfter.db.zips.map (fun z => (z.id, z.used)) = [(1, true), (2, true)]
    ∧ resetAfter.db.countries.map (fun c => c.used) = [true]
    ∧ resetAfter.db.sessions.map (fun s => (s.id, s.completed)) = [(2, false)]
    ∧ resetAfter.currentIndex = 0 := by
  refine ⟨by decide, by decide, by decide, by decide⟩

/-- Usage flags are monotone between two store snapshots: every entity row
that was used in the first is still present (same key) and used in the
second. -/
def UsedMono (st st' : Store) : Prop :=
  (∀ c ∈ st.countries, c.used = true →
    ∃ c' ∈ st'.countries, c'.countryShort = c.countryShort ∧ c'.used = true)
  ∧ (∀ s ∈ st.states, s.used = true →
    ∃ s' ∈ st'.states,
      s'.stateShort = s.stateShort ∧ s'.countryShort = s.countryShort ∧ s'.used = true)
  ∧ (∀ c ∈ st.cities, c.used = true → ∃ c' ∈ st'.cities, c'.id = c.id ∧ c'.used = true)
  ∧ (∀ z ∈ st.zips, z.used = true → ∃ z' ∈ st'.zips, z'.id = z.id ∧ z'.used = true)
  ∧ (∀ q ∈ st.queries, q.used = true → ∃ q' ∈ st'.queries, q'.id = q.id ∧ q'.used = true)

/-- `UsedMono` is reflexive. -/
theorem usedMono_refl (st : Store) : UsedMono st st := by
  refine ⟨?_, ?_, ?_, ?_, ?_⟩
  · intro c hc hu; exact ⟨c, hc, rfl, hu⟩
  · intro s hs hu; exact ⟨s, hs, rfl, rfl, hu⟩
  · intro c hc hu; exact ⟨c, hc, rfl, hu⟩
  · intro z hz hu; exact ⟨z, hz, rfl, hu⟩
  · intro q hq hu; exact ⟨q, hq, rfl, hu⟩

/-- `UsedMono` is transitive. -/
theorem usedMono_trans {st1 st2 st3 : Store}
    (h12 : UsedMono st1 st2) (h23 : UsedMono st2 st3) : UsedMono st1 st3 := by
  obtain ⟨hc12, hs12, hci12, hz12, hq12⟩ := h12
  obtain ⟨hc23, hs23, hci23, hz23, hq23⟩ := h23
  refine ⟨?_, ?_, ?_, ?_, ?_⟩
  · intro c hc hu
    obtain ⟨c2, hm2, hk2, hu2⟩ := hc12 c hc hu
    obtain ⟨c3, hm3, hk3, hu3⟩ := hc23 c2 hm2 hu2
    exact ⟨c3, hm3, hk3.trans hk2, hu3⟩
  · intro s hs hu
    obtain ⟨s2, hm2, hk2, hl2, hu2⟩ := hs12 s hs hu
    obtain ⟨s3, hm3, hk3, hl3, hu3⟩ := hs23 s2 hm2 hu2
    exact ⟨s3, hm3, hk3.trans hk2, hl3.trans hl2, hu3⟩
  · intro c hc hu
    obtain ⟨c2, hm2, hk2, hu2⟩ := hci12 c hc hu
    obtain ⟨c3, hm3, hk3, hu3⟩ := hci23 c2 hm2 hu2
    exact ⟨c3, hm3, hk3.trans hk2, hu3⟩
  · intro z hz hu
    obtain ⟨z2, hm2, hk2, hu2⟩ := hz12 z hz hu
    obtain ⟨z3, hm3, hk3, hu3⟩ := hz23 z2 hm2 hu2
    exact ⟨z3, hm3, hk3.trans hk2, hu3⟩
  · intro q hq hu
    obtain ⟨q2, hm2, hk2, hu2⟩ := hq12 q hq hu
    obtain ⟨q3, hm3, hk3, hu3⟩ := hq23 q2 hm2 hu2
    exact ⟨q3, hm3, hk3.trans hk2, hu3⟩

/-- `markEntitiesAsUsed` only sets usage flags, never clears them. -/
theorem usedMono_mark (c : Option Country) (q : Option Query) (z : Option Zip)
    (ci : Option City) (stt : Option State) (st : Store) :
    UsedMono st (markEntitiesAsUsed c q z ci stt st) := by
  refine ⟨?_, ?_, ?_, ?_, ?_⟩
  · rw [mark_countries]
    intro r hr hu
    cases c with
    | none => exact ⟨r, hr, rfl, hu⟩
    | some c0 =>
      refine ⟨if r.countryShort = c0.countryShort then { r with used := true } else r,
        List.mem_map_of_mem _ hr, ?_, ?_⟩
      · split <;> rfl
      · split <;> simp [hu]
  · rw [mark_states]
    intro r hr hu
    cases stt with
    | none => exact ⟨r, hr, rfl, rfl, hu⟩
    | some s0 =>
      refine ⟨if r.stateShort = s0.stateShort && r.countryShort = s0.countryShort
        then { r with used := true } else r, List.mem_map_of_mem _ hr, ?_, ?_, ?_⟩
      · split <;> rfl
      · split <;> rfl
      · split <;> simp [hu]
  · rw [mark_cities]
    intro r hr hu
    cases ci with
    | none => exact ⟨r, hr, rfl, hu⟩
    | some c0 =>
      refine ⟨if r.id = c0.id then { r with used := true } else r,
        List.mem_map_of_mem _ hr, ?_, ?_⟩
      · split <;> rfl
      · split <;> simp [hu]
  · rw [mark_zips]
    intro r hr hu
    cases z with
    | none => exact ⟨r, hr, rfl, hu⟩
    | some z0 =>
      refine ⟨if r.id = z0.id then { r with used := true } else r,
        List.mem_map_of_mem _ hr, ?_, ?_⟩
      · split <;> rfl
      · split <;> simp [hu]
  · rw [mark_queries]
    intro r hr hu
    cases q with
    | none => exact ⟨r, hr, rfl, hu⟩
    | some q0 =>
      refine ⟨if r.id = q0.id then { r with used := true } else r,
        List.mem_map_of_mem _ hr, ?_, ?_⟩
      · split <;> rfl
      · split <;> simp [hu]

/-- `saveCurrentSession` with a current step appends exactly one fresh
non-completed session row. -/
theorem saveCurrentSession_sessions (sm : StateManager) (cn : NavResponse)
    (h : sm.currentNav = some cn) :
    ∃ s, (saveCurrentSession sm).db.sessions = sm.db.sessions ++ [s]
      ∧ s.completed = false ∧ s.id = sm.db.nextSessionId := by
  unfold saveCurrentSession
  rw [h]
  dsimp only
  rw [mark_sessions]
  exact ⟨_, rfl, rfl, rfl⟩

/-- `saveCurrentSession` never clears a usage flag. -/
theorem saveCurrentSession_mono (sm : StateManager) :
    UsedMono sm.db (saveCurrentSession sm).db := by
  unfold saveCurrentSession
  cases h : sm.currentNav with
  | none => exact usedMono_refl sm.db
  | some cn =>
    dsimp only
    refine usedMono_trans ?_ (usedMono_mark _ _ _ _ _ _)
    exact usedMono_refl sm.db

/-- `saveCurrentSession` leaves the cursor index unchanged. -/
theorem saveCurrentSession_currentIndex (sm : StateManager) :
    (saveCurrentSession sm).currentIndex = sm.currentIndex := by
  unfold saveCurrentSession
  cases sm.currentNav <;> rfl

/-- Shape of `restoreOrStartSession` in the no-active-session case. -/
theorem restore_none_shape (sm : StateManager)
    (h : DB.getCurrentNavSession sm.db = none) :
    restoreOrStartSession sm =
      (match buildNavResponseFromIndex sm 0 with
       | some nv => saveCurrentSession { sm with currentNav := some nv }
       | none => { sm with currentNav := none }) := by
  unfold restoreOrStartSession
  rw [h]
  cases hb : buildNavResponseFromIndex sm 0 <;> simp [hb]

/-- `restoreOrStartSession` on a store with no session rows: at most one
fresh non-completed session afterwards, cursor untouched, usage flags never
cleared. -/
theorem restore_empty_sessions (sm : StateManager) (h : sm.db.sessions = []) :
    (restoreOrStartSession sm).db.sessions.length ≤ 1
    ∧ (∀ s ∈ (restoreOrStartSession sm).db.sessions,
        s.completed = false ∧ s.id = sm.db.nextSessionId)
    ∧ (restoreOrStartSession sm).currentIndex = sm.currentIndex
    ∧ UsedMono sm.db (restoreOrStartSession sm).db := by
  have hnone : DB.getCurrentNavSession sm.db = none := by
    simp [DB.getCurrentNavSession, h]
  rw [restore_none_shape sm hnone]
  cases hb : buildNavResponseFromIndex sm 0 with
  | none => exact ⟨by simp [h], by simp [h], rfl, usedMono_refl sm.db⟩
  | some nv =>
    obtain ⟨s, heq, hcompleted, hid⟩ :=
      saveCurrentSession_sessions { sm with currentNav := some nv } nv rfl
    have hmono := saveCurrentSession_mono { sm with currentNav := some nv }
    have hse : ({ sm with currentNav := some nv } : StateManager).db.sessions = [] := h
    rw [hse, List.nil_append] at heq
    refine ⟨by rw [heq]; simp, ?_, ?_, hmono⟩
    · intro s' hs'
      rw [heq] at hs'
      simp at hs'
      subst hs'
      exact ⟨hcompleted, hid⟩
    · rw [saveCurrentSession_currentIndex]

/-- C7 as amended: `ResetNav` deletes all pre-existing session rows (after
it, at most one session exists, and any such row is a fresh non-completed
one carrying the next unassigned id) and restarts the cursor at index 0; it
does NOT clear usage flags — every entity row used before remains used. -/
theorem resetNav_amended (sm : StateManager) :
    (resetNav sm).db.sessions.length ≤ 1
    ∧ (∀ s ∈ (resetNav sm).db.sessions, s.completed = false ∧ s.id = sm.db.nextSessionId)
    ∧ (resetNav sm).currentIndex = 0
    ∧ UsedMono sm.db (resetNav sm).db := by
  obtain ⟨h1, h2, h3, h4⟩ := restore_empty_sessions
    { sm with db := DB.resetNavSessions sm.db, currentIndex := 0, currentNav := none } rfl
  exact ⟨h1, h2, h3, h4⟩

/-- Witness for C7's amended theorem at the concrete reset scenario. -/
theorem resetNav_amended_witness :
    (resetNav resetInit).currentIndex = 0
    ∧ ∃ z' ∈ (resetNav resetInit).db.zips, z'.id = 1 ∧ z'.used = true :=
  ⟨(resetNav_amended resetInit).2.2.1,
    (resetNav_amended resetInit).2.2.2.2.2.2.1 ⟨1, "11111", "US", true, false⟩ (by decide) rfl⟩

/-! ## C2 amended: the expansion follows the stored country row order -/

/-- Every navigation entry `addNavForQuery` emits carries the country code of
the country it was generated for. -/
theorem addNavForQuery_country (format : String) (query : Option Query) (country : Country)
    (states : List State) (cities : List City) (zips : List Zip) :
    ∀ nav ∈ addNavForQuery format query country states cities zips,
      nav.country = some country.countryShort := by
  intro nav h
  unfold addNavForQuery at h
  split at h <;> (try split at h) <;>
    simp only [List.mem_map, List.mem_filterMap, List.mem_singleton,
      List.not_mem_nil] at h <;>
    first
    | (rcases h with ⟨x, hxm, rfl⟩; rfl)
    | (rcases h with ⟨x, hxm, hx⟩; rcases Option.map_eq_some'.1 hx with ⟨y, hy, rfl⟩; rfl)

/-- Every navigation entry a country's block contributes carries that
country's code. -/
theorem navForCountry_country (sm : StateManager) (country : Country) :
    ∀ nav ∈ navForCountry sm country, nav.country = some country.countryShort := by
  intro nav h
  unfold navForCountry at h
  split at h
  · rcases List.mem_flatMap.1 h with ⟨q, _, hq⟩
    exact addNavForQuery_country _ _ _ _ _ _ nav hq
  · exact addNavForQuery_country _ _ _ _ _ _ nav h

/-- C2 as amended: the sequence expansion iterates the in-memory countries
list in its stored order (the store's row order) — the expanded sequence is
the concatenation, country by country in list order, of blocks all of whose
entries carry that country's code.  No lexicographic sort is applied (see
the counterexample), so determinism comes from the row order alone. -/
theorem generateNavOrder_row_order (sm : StateManager) :
    (generateNavOrder sm).map (fun n => n.country)
      = sm.countries.flatMap (fun c =>
          List.replicate (navForCountry sm c).length (some c.countryShort)) := by
  unfold generateNavOrder
  rw [List.map_flatMap]
  exact flatMap_congr_mem (fun c _ => map_const_of_mem (navForCountry_country sm c))

/-! ## C3: what a successful advance persists and marks -/

/-- Full shape of the session row `saveCurrentSession` appends and of the
zips table it leaves behind, in terms of the text/code lookups performed on
the current step's fields. -/
theorem saveCurrentSession_spec (sm : StateManager) (cn : NavResponse)
    (h : sm.currentNav = some cn) :
    (saveCurrentSession sm).db.sessions = sm.db.sessions ++
      [{ id := sm.db.nextSessionId
         format := cn.format
         countryShort := ((findCountry sm cn.country).map (fun c => c.countryShort)).getD ""
         queryId := (cn.nav.query.bind (fun t => findQueryByText sm t)).map (fun q => q.id)
         zipId := (cn.nav.zip.bind (fun t => findZipByText sm t)).map (fun z => z.id)
         cityId := (cn.nav.city.bind (fun t => findCityByText sm t)).map (fun c => c.id)
         stateShort := (cn.nav.stateShort.bind (fun ss => findState sm ss)).map
           (fun s => s.stateShort)
         page := marshalPage cn.page
         completed := false
         external := true }]
    ∧ (saveCurrentSession sm).db.zips =
        (match cn.nav.zip.bind (fun t => findZipByText sm t) with
         | some z0 => sm.db.zips.map (fun r =>
             if r.id = z0.id then { r with used := true } else r)
         | none => sm.db.zips) := by
  unfold saveCurrentSession
  rw [h]
  dsimp only
  constructor
  · rw [mark_sessions]
    rfl
  · rw [mark_zips]
    rfl

/-- Store for the duplicate-zip-text scenario: `CA` and `US` both have a zip
with the text `10001`; `US` additionally has `90210`. -/
def dupStore : Store :=
  { countries := [⟨"Canada", "CA", false, false⟩, ⟨"United States", "US", false, false⟩]
    states := []
    cities := []
    zips := [⟨1, "10001", "CA", false, false⟩, ⟨2, "10001", "US", false, false⟩,
             ⟨3, "90210", "US", false, false⟩]
    queries := []
    sessions := []
    nextCityId := 1, nextZipId := 4, nextQueryId := 1, nextSessionId := 1 }

/-- The duplicate-zip scenario after `Init(zip, all)`: the sequence is
`[(10001, CA), (10001, US), (90210, US)]` with an active session for step 0. -/
def dupInit : StateManager := initSM emptyLD ⟨"zip", "all"⟩ (freshSM dupStore)

/-- The scenario just before the advance under test: step 0 completed,
advanced to step 1 `(10001, US)`, step 1's session completed. -/
def dupPre : StateManager := markComplete ((getNextNav (markComplete dupInit)).2)

/-- The scenario after the advance under test (step 1 → step 2). -/
def dupPost : StateManager := (getNextNav dupPre).2

/-- C3 counterexample: the advance from completed step 1 `(zip 10001, US)` to
step 2 succeeds and persists a fresh session, but the previous step's own zip
row (id 2, `10001`/`US`) is NOT marked used — it stays `used = false` even
though the claim requires the previous step's entities to be marked.  The
code instead marks the NEW step's entities when it saves the new session,
resolving the zip by first text match (which is also why row 1, `10001`/`CA`,
was marked when step 1's session was created, instead of row 2). -/
theorem advance_skips_previous_step_entities :
    dupPre.currentIndex = 1
    ∧ dupPre.currentNav.map (fun cn => (cn.nav.zip, cn.country)) = some (some "10001", "US")
    ∧ dupPre.db.sessions.map (fun s => s.completed) = [true, true]
    ∧ dupPost.currentIndex = 2
    ∧ dupPost.db.sessions.map (fun s => (s.completed, s.zipId))
        = [(true, some 1), (true, some 1), (false, some 3)]
    ∧ dupPost.db.zips.map (fun z => (z.id, z.zip, z.countryShort, z.used))
        = [(1, "10001", "CA", true), (2, "10001", "US", false), (3, "90210", "US", true)] := by
  refine ⟨by decide, by decide, by decide, by decide, by decide, by decide⟩

/-- C3 as amended: a successful advance (no active session, a step at the
incremented index) returns the new step, appends exactly one fresh
non-completed session row recording the NEW step's entities — query, zip and
city resolved by first text match over the loaded lists, the state by short
code — and sets the used flags of exactly those resolved entities (shown for
the zips table: rows other than the first text match of the new step's zip
are untouched, that row is set used).  No usage flag is ever cleared.  The
previous step's entities are not marked at advance time (they were marked,
by the same text-based rule, when their own session was created). -/
theorem advance_saves_new_step (sm : StateManager) (nv : NavResponse)
    (hs : DB.getCurrentNavSession sm.db = none)
    (hn : buildNavResponseFromIndex { sm with currentIndex := sm.currentIndex + 1 }
        (sm.currentIndex + 1) = some nv) :
    (getNextNav sm).1 = some nv
    ∧ (∃ s, (getNextNav sm).2.db.sessions = sm.db.sessions ++ [s]
        ∧ s.completed = false
        ∧ s.format = nv.format
        ∧ s.queryId = (nv.nav.query.bind (fun t => findQueryByText sm t)).map (fun q => q.id)
        ∧ s.zipId = (nv.nav.zip.bind (fun t => findZipByText sm t)).map (fun z => z.id)
        ∧ s.cityId = (nv.nav.city.bind (fun t => findCityByText sm t)).map (fun c => c.id)
        ∧ s.stateShort = (nv.nav.stateShort.bind (fun ss => findState sm ss)).map
            (fun st => st.stateShort))
    ∧ (∀ z ∈ sm.db.zips,
        (∀ w, nv.nav.zip.bind (fun t => findZipByText sm t) = some w → z.id ≠ w.id) →
        z ∈ (getNextNav sm).2.db.zips)
    ∧ (∀ w z, nv.nav.zip.bind (fun t => findZipByText sm t) = some w →
        z ∈ sm.db.zips → z.id = w.id → { z with used := true } ∈ (getNextNav sm).2.db.zips)
    ∧ UsedMono sm.db (getNextNav sm).2.db := by
  have hres : getNextNav sm =
      (some nv, saveCurrentSession
        { sm with currentIndex := sm.currentIndex + 1, currentNav := some nv }) := by
    unfold getNextNav
    rw [hs]
    dsimp only [sessionIsActive]
    rw [if_neg (by simp)]
    rw [hn]
  rw [hres]
  obtain ⟨hsess, hzips⟩ := saveCurrentSession_spec
    { sm with currentIndex := sm.currentIndex + 1, currentNav := some nv } nv rfl
  have hzips2 : (saveCurrentSession
      { sm with currentIndex := sm.currentIndex + 1, currentNav := some nv }).db.zips =
      (match nv.nav.zip.bind (fun t => findZipByText sm t) with
       | some z0 => sm.db.zips.map (fun r =>
           if r.id = z0.id then { r with used := true } else r)
       | none => sm.db.zips) := hzips
  have hmono := saveCurrentSession_mono
    { sm with currentIndex := sm.currentIndex + 1, currentNav := some nv }
  refine ⟨rfl, ⟨_, hsess, rfl, rfl, rfl, rfl, rfl, rfl⟩, ?_, ?_, hmono⟩
  · intro z hz hne
    rw [hzips2]
    cases hw : nv.nav.zip.bind (fun t => findZipByText sm t) with
    | none => exact hz
    | some w =>
      have hfix : (if z.id = w.id then { z with used := true } else z) = z := by
        rw [if_neg (hne w hw)]
      exact mem_map_self hz hfix
  · intro w z hw hz hid
    rw [hzips2, hw]
    have heqz : { z with used := true } = if z.id = w.id then { z with used := true } else z := by
      rw [if_pos hid]
    rw [heqz]
    exact List.mem_map_of_mem _ hz

/-- Witness for C3's amended theorem: the concrete advance from `dupPre`. -/
theorem advance_saves_new_step_witness :
    (getNextNav dupPre).1.map (fun cn => cn.nav.zip) = some (some "90210")
    ∧ ∃ s, (getNextNav dupPre).2.db.sessions = dupPre.db.sessions ++ [s]
        ∧ s.completed = false := by
  obtain ⟨h1, ⟨s, hs1, hs2, _⟩, _⟩ := advance_saves_new_step dupPre
    ⟨"zip", { zip := some "90210", country := some "US" }, "US", "90210", none, false⟩
    (by decide) (by decide)
  exact ⟨by rw [h1]; rfl, s, hs1, hs2⟩

/-! ## C4: restore re-locates the cursor by value equality -/

/-- The value-equality predicate `restoreOrStartSession` hands to
`findNavIndex` for a restored session: the session's recorded entities are
resolved against the loaded lists (query/zip/city by recorded id, state by
recorded short code, country by recorded code) and compared to a step by
`navMatches` — i.e. by query text, zip code, city name, state name and
country code, never by a stored index (the session stores none). -/
def sessionMatch (sm : StateManager) (s : NavSession) (nav : Nav) : Bool :=
  navMatches nav (findCountry sm s.countryShort)
    (s.queryId.bind (fun i => findQuery sm i))
    (s.zipId.bind (fun i => findZip sm i))
    (s.cityId.bind (fun i => findCity sm i))
    (s.stateShort.bind (fun ss => findState sm ss))

/-- Shape of `restoreOrStartSession` when an active session exists: nothing
is written and the cursor is `findNavIndex` of the resolved entities. -/
theorem restore_some_shape (sm : StateManager) (s : NavSession)
    (h : DB.getCurrentNavSession sm.db = some s) :
    (restoreOrStartSession sm).db = sm.db
    ∧ (restoreOrStartSession sm).currentIndex =
        (match sm.navOrder.findIdx? (sessionMatch sm s) with
         | some i => i
         | none => 0) := by
  unfold restoreOrStartSession
  rw [h]
  dsimp only
  exact ⟨rfl, rfl⟩

/-- C4: on restore with an active session, the store is untouched and the
cursor is re-located purely by value equality on the fields the session
recorded: it lands on the FIRST step of the freshly expanded sequence that
`navMatches` the resolved entities (never above a matching index), and falls
back to index 0 when no step matches.  With no active session (and the
cursor at 0, as `Init` sets it), the cursor stays at index 0 and a session
for step 0 is immediately persisted when the sequence is nonempty (the store
is untouched when it is empty). -/
theorem restore_by_value_equality (sm : StateManager) :
    (∀ s, DB.getCurrentNavSession sm.db = some s →
      (restoreOrStartSession sm).db = sm.db
      ∧ ((∃ i, ∃ hi : i < sm.navOrder.length,
            sessionMatch sm s (sm.navOrder.get ⟨i, hi⟩) = true) →
          ∃ hr : (restoreOrStartSession sm).currentIndex < sm.navOrder.length,
            sessionMatch sm s
              (sm.navOrder.get ⟨(restoreOrStartSession sm).currentIndex, hr⟩) = true
            ∧ ∀ j (hj : j < sm.navOrder.length), j < (restoreOrStartSession sm).currentIndex →
                sessionMatch sm s (sm.navOrder.get ⟨j, hj⟩) = false)
      ∧ ((∀ i (hi : i < sm.navOrder.length),
            sessionMatch sm s (sm.navOrder.get ⟨i, hi⟩) = false) →
          (restoreOrStartSession sm).currentIndex = 0))
    ∧ (DB.getCurrentNavSession sm.db = none → sm.currentIndex = 0 →
        (restoreOrStartSession sm).currentIndex = 0
        ∧ (sm.navOrder ≠ [] →
            ∃ s, (restoreOrStartSession sm).db.sessions = sm.db.sessions ++ [s]
              ∧ s.completed = false)
        ∧ (sm.navOrder = [] → (restoreOrStartSession sm).db = sm.db)) := by
  constructor
  · intro s hs
    refine ⟨(restore_some_shape sm s hs).1, ?_, ?_⟩
    · intro hex
      obtain ⟨i, hi, hm⟩ := hex
      cases hfind : sm.navOrder.findIdx? (sessionMatch sm s) with
      | none =>
        rw [List.findIdx?_eq_none_iff] at hfind
        have hfalse := hfind (sm.navOrder.get ⟨i, hi⟩) (sm.navOrder.get_mem i hi)
        rw [hm] at hfalse
        cases hfalse
      | some k =>
        have hik : (restoreOrStartSession sm).currentIndex = k := by
          rw [(restore_some_shape sm s hs).2, hfind]
        rw [List.findIdx?_eq_some_iff_getElem] at hfind
        obtain ⟨hk, hsat, hmin⟩ := hfind
        rw [hik]
        refine ⟨hk, ?_, ?_⟩
        · simpa [List.get_eq_getElem] using hsat
        · intro j hj hjk
          have hfail := hmin j hjk
          simpa [List.get_eq_getElem] using hfail
    · intro hall
      cases hfind : sm.navOrder.findIdx? (sessionMatch sm s) with
      | none => rw [(restore_some_shape sm s hs).2, hfind]
      | some k =>
        rw [List.findIdx?_eq_some_iff_getElem] at hfind
        obtain ⟨hk, hsat, hmin⟩ := hfind
        have hfail := hall k hk
        rw [List.get_eq_getElem] at hfail
        rw [hfail] at hsat
        cases hsat
  · intro hs hidx0
    rw [restore_none_shape sm hs]
    cases hb : buildNavResponseFromIndex sm 0 with
    | none =>
      refine ⟨hidx0, ?_, fun _ => rfl⟩
      intro hne
      exfalso
      unfold buildNavResponseFromIndex at hb
      rw [dif_pos (List.length_pos.mpr hne)] at hb
      cases hb
    | some nv =>
      obtain ⟨s, heq, hc, _⟩ := saveCurrentSession_sessions { sm with currentNav := some nv } nv rfl
      refine ⟨?_, fun _ => ⟨s, heq, hc⟩, ?_⟩
      · rw [saveCurrentSession_currentIndex]
        exact hidx0
      · intro hnil
        exfalso
        unfold buildNavResponseFromIndex at hb
        rw [dif_neg (by rw [hnil]; simp)] at hb
        cases hb

/-- Witness for C4 at a concrete state: `oneActiveSM` has an active session
and an empty sequence, so no step matches and the cursor falls back to 0. -/
theorem restore_by_value_equality_witness :
    (restoreOrStartSession oneActiveSM).db = oneActiveSM.db
    ∧ (restoreOrStartSession oneActiveSM).currentIndex = 0 := by
  obtain ⟨hdb, _, hfall⟩ := (restore_by_value_equality oneActiveSM).1
    ⟨1, "zip", "US", none, none, none, none, PageCol.empty, false, true⟩ rfl
  exact ⟨hdb, hfall (fun i hi => absurd hi (by simp [oneActiveSM, freshSM]))⟩

/-! ## C8: bulk adds validate the whole batch before any write -/

/-- Generic presence lemma for a batch fold over an insert-or-ignore
operation: if the insert preserves present keys and establishes its own
record's key, then after folding a batch every batch record's key is
present. -/
theorem foldl_presence {α ρ κ : Type} (ins : α → Store → Store) (proj : Store → List ρ)
    (keyIn : α → κ) (keyRow : ρ → κ)
    (hkeep : ∀ a st k, (∃ r ∈ proj st, keyRow r = k) → ∃ r ∈ proj (ins a st), keyRow r = k)
    (hself : ∀ a st, ∃ r ∈ proj (ins a st), keyRow r = keyIn a) :
    ∀ (l : List α) (st : Store), ∀ a ∈ l,
      ∃ r ∈ proj (l.foldl (fun acc x => ins x acc) st), keyRow r = keyIn a := by
  have hfold : ∀ (l : List α) (st : Store) (k : κ),
      (∃ r ∈ proj st, keyRow r = k) →
      ∃ r ∈ proj (l.foldl (fun acc x => ins x acc) st), keyRow r = k := by
    intro l
    induction l with
    | nil => intro st k h; exact h
    | cons b m ih =>
      intro st k h
      rw [List.foldl_cons]
      exact ih _ k (hkeep b st k h)
  intro l
  induction l with
  | nil => intro st a ha; cases ha
  | cons b m ih =>
    intro st a ha
    rw [List.foldl_cons]
    rcases List.mem_cons.1 ha with rfl | ha'
    · exact hfold m _ (keyIn a) (hself a st)
    · exact ih _ a ha'

/-- C8: every bulk-add operation of the store layer (countries, states,
cities, zips, queries) validates the whole batch before any write: when any
record misses a required field the call returns the single descriptive error
of that operation (and, the functions being pure, no store is produced, so
nothing was written); when every record is valid the call succeeds and every
record of the batch is present in the result by its unique key (records
whose key already existed are skipped by `INSERT OR IGNORE`). -/
theorem bulk_add_all_or_nothing (st : Store) (ext : Bool) :
    (∀ cs : List Country, (∃ c ∈ cs, DB.countryInvalid c = true) →
      DB.addCountries cs ext st
        = Except.error "all countries must have countryShort and country")
    ∧ (∀ cs : List Country, (∀ c ∈ cs, DB.countryInvalid c = false) →
      ∃ st', DB.addCountries cs ext st = Except.ok st'
        ∧ ∀ c ∈ cs, ∃ r ∈ st'.countries, r.countryShort = c.countryShort)
    ∧ (∀ ss : List State, (∃ s ∈ ss, DB.stateInvalid s = true) →
      DB.addStates ss ext st
        = Except.error "all states must have stateShort, state, and countryShort")
    ∧ (∀ ss : List State, (∀ s ∈ ss, DB.stateInvalid s = false) →
      ∃ st', DB.addStates ss ext st = Except.ok st'
        ∧ ∀ s ∈ ss, ∃ r ∈ st'.states,
            r.stateShort = s.stateShort ∧ r.countryShort = s.countryShort)
    ∧ (∀ cs : List City, (∃ c ∈ cs, DB.cityInvalid c = true) →
      DB.addCities cs ext st
        = Except.error "all cities must have city, stateShort, and countryShort")
    ∧ (∀ cs : List City, (∀ c ∈ cs, DB.cityInvalid c = false) →
      ∃ st', DB.addCities cs ext st = Except.ok st'
        ∧ ∀ c ∈ cs, ∃ r ∈ st'.cities,
            r.city = c.city ∧ r.stateShort = c.stateShort ∧ r.countryShort = c.countryShort)
    ∧ (∀ zs : List Zip, (∃ z ∈ zs, DB.zipInvalid z = true) →
      DB.addZips zs ext st = Except.error "all zips must have zip and countryShort")
    ∧ (∀ zs : List Zip, (∀ z ∈ zs, DB.zipInvalid z = false) →
      ∃ st', DB.addZips zs ext st = Except.ok st'
        ∧ ∀ z ∈ zs, ∃ r ∈ st'.zips, r.zip = z.zip ∧ r.countryShort = z.countryShort)
    ∧ (∀ qs : List String, (∃ q ∈ qs, q = "") →
      DB.addQueries qs ext st = Except.error "all queries must be non-empty strings")
    ∧ (∀ qs : List String, (∀ q ∈ qs, ¬ q = "") →
      ∃ st', DB.addQueries qs ext st = Except.ok st'
        ∧ ∀ q ∈ qs, ∃ r ∈ st'.queries, r.query = q) := by
  have hcountries := foldl_presence (fun c acc => DB.insertCountry c ext acc) Store.countries
    (fun c => c.countryShort) (fun r => r.countryShort)
    (by
      intro a st0 k h
      unfold DB.insertCountry
      dsimp only
      split
      · exact h
      · obtain ⟨r, hr, hk⟩ := h
        exact ⟨r, List.mem_append_left _ hr, hk⟩)
    (by
      intro a st0
      unfold DB.insertCountry
      dsimp only
      split
      · next hany =>
        simp only [List.any_eq_true, decide_eq_true_eq] at hany
        obtain ⟨r, hr, hk⟩ := hany
        exact ⟨r, hr, hk⟩
      · exact ⟨_, List.mem_append_right _ (List.mem_singleton_self _), rfl⟩)
  have hstates := foldl_presence (fun s acc => DB.insertState s ext acc) Store.states
    (fun s => (s.stateShort, s.countryShort)) (fun r => (r.stateShort, r.countryShort))
    (by
      intro a st0 k h
      unfold DB.insertState
      dsimp only
      split
      · exact h
      · obtain ⟨r, hr, hk⟩ := h
        exact ⟨r, List.mem_append_left _ hr, hk⟩)
    (by
      intro a st0
      unfold DB.insertState
      dsimp only
      split
      · next hany =>
        simp only [List.any_eq_true, Bool.and_eq_true, decide_eq_true_eq] at hany
        obtain ⟨r, hr, hk⟩ := hany
        refine ⟨r, hr, ?_⟩
        simp only [Prod.mk.injEq]
        tauto
      · exact ⟨_, List.mem_append_right _ (List.mem_singleton_self _), rfl⟩)
  have hcities := foldl_presence (fun c acc => DB.insertCity c ext acc) Store.cities
    (fun c => (c.city, c.stateShort, c.countryShort))
    (fun r => (r.city, r.stateShort, r.countryShort))
    (by
      intro a st0 k h
      unfold DB.insertCity
      dsimp only
      split
      · exact h
      · obtain ⟨r, hr, hk⟩ := h
        exact ⟨r, List.mem_append_left _ hr, hk⟩)
    (by
      intro a st0
      unfold DB.insertCity
      dsimp only
      split
      · next hany =>
        simp only [List.any_eq_true, Bool.and_eq_true, decide_eq_true_eq] at hany
        obtain ⟨r, hr, hk⟩ := hany
        refine ⟨r, hr, ?_⟩
        simp only [Prod.mk.injEq]
        tauto
      · exact ⟨_, List.mem_append_right _ (List.mem_singleton_self _), rfl⟩)
  have hzips := foldl_presence (fun z acc => DB.insertZip z ext acc) Store.zips
    (fun z => (z.zip, z.countryShort)) (fun r => (r.zip, r.countryShort))
    (by
      intro a st0 k h
      unfold DB.insertZip
      dsimp only
      split
      · exact h
      · obtain ⟨r, hr, hk⟩ := h
        exact ⟨r, List.mem_append_left _ hr, hk⟩)
    (by
      intro a st0
      unfold DB.insertZip
      dsimp only
      split
      · next hany =>
        simp only [List.any_eq_true, Bool.and_eq_true, decide_eq_true_eq] at hany
        obtain ⟨r, hr, hk⟩ := hany
        refine ⟨r, hr, ?_⟩
        simp only [Prod.mk.injEq]
        tauto
      · exact ⟨_, List.mem_append_right _ (List.mem_singleton_self _), rfl⟩)
  have hqueries := foldl_presence (fun q acc => DB.insertQuery q ext acc) Store.queries
    (fun q => q) (fun r => r.query)
    (by
      intro a st0 k h
      unfold DB.insertQuery
      dsimp only
      split
      · exact h
      · obtain ⟨r, hr, hk⟩ := h
        exact ⟨r, List.mem_append_left _ hr, hk⟩)
    (by
      intro a st0
      unfold DB.insertQuery
      dsimp only
      split
      · next hany =>
        simp only [List.any_eq_true, decide_eq_true_eq] at hany
        obtain ⟨r, hr, hk⟩ := hany
        exact ⟨r, hr, hk⟩
      · exact ⟨_, List.mem_append_right _ (List.mem_singleton_self _), rfl⟩)
  refine ⟨?_, ?_, ?_, ?_, ?_, ?_, ?_, ?_, ?_, ?_⟩
  · intro cs hex
    unfold DB.addCountries
    rw [if_pos (List.any_eq_true.mpr hex)]
  · intro cs hval
    unfold DB.addCountries
    rw [if_neg (by
      rw [List.any_eq_true]
      rintro ⟨c, hc, hinv⟩
      rw [hval c hc] at hinv
      cases hinv)]
    exact ⟨_, rfl, hcountries cs st⟩
  · intro ss hex
    unfold DB.addStates
    rw [if_pos (List.any_eq_true.mpr hex)]
  · intro ss hval
    unfold DB.addStates
    rw [if_neg (by
      rw [List.any_eq_true]
      rintro ⟨s, hsx, hinv⟩
      rw [hval s hsx] at hinv
      cases hinv)]
    refine ⟨_, rfl, ?_⟩
    intro s hsx
    obtain ⟨r, hr, hk⟩ := hstates ss st s hsx
    rw [Prod.mk.injEq] at hk
    exact ⟨r, hr, hk.1, hk.2⟩
  · intro cs hex
    unfold DB.addCities
    rw [if_pos (List.any_eq_true.mpr hex)]
  · intro cs hval
    unfold DB.addCities
    rw [if_neg (by
      rw [List.any_eq_true]
      rintro ⟨c, hc, hinv⟩
      rw [hval c hc] at hinv
      cases hinv)]
    refine ⟨_, rfl, ?_⟩
    intro c hc
    obtain ⟨r, hr, hk⟩ := hcities cs st c hc
    rw [Prod.mk.injEq, Prod.mk.injEq] at hk
    exact ⟨r, hr, hk.1, hk.2.1, hk.2.2⟩
  · intro zs hex
    unfold DB.addZips
    rw [if_pos (List.any_eq_true.mpr hex)]
  · intro zs hval
    unfold DB.addZips
    rw [if_neg (by
      rw [List.any_eq_true]
      rintro ⟨z, hz, hinv⟩
      rw [hval z hz] at hinv
      cases hinv)]
    refine ⟨_, rfl, ?_⟩
    intro z hz
    obtain ⟨r, hr, hk⟩ := hzips zs st z hz
    rw [Prod.mk.injEq] at hk
    exact ⟨r, hr, hk.1, hk.2⟩
  · intro qs hex
    unfold DB.addQueries
    rw [if_pos (by
      rw [List.any_eq_true]
      obtain ⟨q, hq, he⟩ := hex
      exact ⟨q, hq, by rw [he]; rfl⟩)]
  · intro qs hval
    unfold DB.addQueries
    rw [if_neg (by
      rw [List.any_eq_true]
      rintro ⟨q, hq, hinv⟩
      exact hval q hq (by simpa using hinv))]
    exact ⟨_, rfl, hqueries qs st⟩

/-- Witness for C8: a concrete invalid city batch is rejected whole, and a
concrete valid batch's record is present after the call. -/
theorem bulk_add_all_or_nothing_witness :
    DB.addCities [⟨0, "", "CA", "US", none, false, false⟩] false twoQueriesStore
      = Except.error "all cities must have city, stateShort, and countryShort"
    ∧ ∃ st', DB.addCities [⟨0, "Fresno", "CA", "US", none, false, false⟩] false twoQueriesStore
        = Except.ok st'
      ∧ ∀ c ∈ [(⟨0, "Fresno", "CA", "US", none, false, false⟩ : City)], ∃ r ∈ st'.cities,
          r.city = c.city ∧ r.stateShort = c.stateShort ∧ r.countryShort = c.countryShort :=
  ⟨(bulk_add_all_or_nothing twoQueriesStore false).2.2.2.2.1
      [⟨0, "", "CA", "US", none, false, false⟩] (by decide),
   (bulk_add_all_or_nothing twoQueriesStore false).2.2.2.2.2.1
      [⟨0, "Fresno", "CA", "US", none, false, false⟩] (by decide)⟩

/-! ## C6: at most one active session in every reachable state -/

/-- Number of active rows in a session list (`completed = 0`). -/
def listActive (l : List NavSession) : Nat :=
  (l.filter (fun s => !s.completed)).length

/-- Number of active (non-completed) session rows in the store. -/
def activeCount (st : Store) : Nat :=
  listActive st.sessions

/-- `GetCurrentNavSession` finds nothing exactly when no active session
row exists. -/
theorem active_none_iff (st : Store) :
    DB.getCurrentNavSession st = none ↔ activeCount st = 0 := by
  unfold DB.getCurrentNavSession activeCount listActive
  rw [List.find?_eq_none, List.length_eq_zero, List.filter_eq_nil_iff]

/-- A session returned by `GetCurrentNavSession` is non-completed. -/
theorem active_some_completed {st : Store} {s : NavSession}
    (h : DB.getCurrentNavSession st = some s) : s.completed = false := by
  have := List.find?_some h
  simpa using this

/-- Appending one row changes the active count by one exactly when the row
is non-completed. -/
theorem listActive_append (l : List NavSession) (s : NavSession) :
    listActive (l ++ [s]) = listActive l + (if s.completed then 0 else 1) := by
  unfold listActive
  rw [List.filter_append]
  cases hc : s.completed <;> simp [List.filter, hc]

/-- The active count never exceeds the number of session rows. -/
theorem listActive_le_length (l : List NavSession) : listActive l ≤ l.length :=
  List.length_filter_le _ l

/-- A page update leaves the active count unchanged. -/
theorem activeCount_updatePage (id : Nat) (p : PageCol) (st : Store) :
    activeCount (DB.updateNavSessionPage id p st) = activeCount st := by
  unfold activeCount DB.updateNavSessionPage listActive
  suffices hgen : ∀ l : List NavSession,
      ((l.map (fun s => if s.id = id then { s with page := p } else s)).filter
        (fun s => !s.completed)).length = (l.filter (fun s => !s.completed)).length by
    exact hgen st.sessions
  intro l
  induction l with
  | nil => rfl
  | cons a l ih =>
    rw [List.map_cons, List.filter_cons, List.filter_cons]
    have hc : (if a.id = id then { a with page := p } else a).completed = a.completed := by
      split <;> rfl
    rw [hc]
    cases hcc : !a.completed <;> simp [ih]

/-- Marking a session completed never increases the active count. -/
theorem activeCount_updateCompleted (id : Nat) (st : Store) :
    activeCount (DB.updateNavSessionCompleted id st) ≤ activeCount st := by
  unfold activeCount DB.updateNavSessionCompleted listActive
  suffices hgen : ∀ l : List NavSession,
      ((l.map (fun s => if s.id = id then { s with completed := true } else s)).filter
        (fun s => !s.completed)).length ≤ (l.filter (fun s => !s.completed)).length by
    exact hgen st.sessions
  intro l
  induction l with
  | nil => exact Nat.le_refl _
  | cons a l ih =>
    rw [List.map_cons, List.filter_cons, List.filter_cons]
    by_cases hid : a.id = id
    · rw [if_pos hid]
      cases hcc : !a.completed <;> simp <;> omega
    · rw [if_neg hid]
      cases hcc : !a.completed <;> simp [hcc] <;> omega

/-- Session updates leave the number of session rows unchanged. -/
theorem sessions_length_updatePage (id : Nat) (p : PageCol) (st : Store) :
    (DB.updateNavSessionPage id p st).sessions.length = st.sessions.length := by
  unfold DB.updateNavSessionPage
  rw [List.length_map]

/-- Completion updates leave the number of session rows unchanged. -/
theorem sessions_length_updateCompleted (id : Nat) (st : Store) :
    (DB.updateNavSessionCompleted id st).sessions.length = st.sessions.length := by
  unfold DB.updateNavSessionCompleted
  rw [List.length_map]

/-- Entity inserts never touch the session table. -/
theorem insert_sessions_frame (st : Store) :
    (∀ c ext, (DB.insertCountry c ext st).sessions = st.sessions)
    ∧ (∀ s ext, (DB.insertState s ext st).sessions = st.sessions)
    ∧ (∀ c ext, (DB.insertCity c ext st).sessions = st.sessions)
    ∧ (∀ z ext, (DB.insertZip z ext st).sessions = st.sessions)
    ∧ (∀ q ext, (DB.insertQuery q ext st).sessions = st.sessions) := by
  refine ⟨?_, ?_, ?_, ?_, ?_⟩ <;>
    (intro x ext
     first
     | (unfold DB.insertCountry; split <;> rfl)
     | (unfold DB.insertState; split <;> rfl)
     | (unfold DB.insertCity; split <;> rfl)
     | (unfold DB.insertZip; split <;> rfl)
     | (unfold DB.insertQuery; split <;> rfl))

/-- The bulk-add folds never touch the session table. -/
theorem foldl_sessions_frame {α : Type} (ins : α → Store → Store)
    (hins : ∀ a st, (ins a st).sessions = st.sessions) :
    ∀ (l : List α) (st : Store), (l.foldl (fun acc x => ins x acc) st).sessions = st.sessions := by
  intro l
  induction l with
  | nil => intro st; rfl
  | cons a m ih =>
    intro st
    rw [List.foldl_cons, ih, hins]

/-- A successful store-level bulk add never touches the session table. -/
theorem addOps_sessions_frame (st st' : Store) (ext : Bool) :
    (∀ cs, DB.addCountries cs ext st = Except.ok st' → st'.sessions = st.sessions)
    ∧ (∀ ss, DB.addStates ss ext st = Except.ok st' → st'.sessions = st.sessions)
    ∧ (∀ cs, DB.addCities cs ext st = Except.ok st' → st'.sessions = st.sessions)
    ∧ (∀ zs, DB.addZips zs ext st = Except.ok st' → st'.sessions = st.sessions)
    ∧ (∀ qs, DB.addQueries qs ext st = Except.ok st' → st'.sessions = st.sessions) := by
  refine ⟨?_, ?_, ?_, ?_, ?_⟩
  · intro cs h
    unfold DB.addCountries at h
    split at h
    · cases h
    · cases h
      exact foldl_sessions_frame _ (fun a st0 => (insert_sessions_frame st0).1 a ext) cs st
  · intro ss h
    unfold DB.addStates at h
    split at h
    · cases h
    · cases h
      exact foldl_sessions_frame _ (fun a st0 => (insert_sessions_frame st0).2.1 a ext) ss st
  · intro cs h
    unfold DB.addCities at h
    split at h
    · cases h
    · cases h
      exact foldl_sessions_frame _ (fun a st0 => (insert_sessions_frame st0).2.2.1 a ext) cs st
  · intro zs h
    unfold DB.addZips at h
    split at h
    · cases h
    · cases h
      exact foldl_sessions_frame _ (fun a st0 => (insert_sessions_frame st0).2.2.2.1 a ext) zs st
  · intro qs h
    unfold DB.addQueries at h
    split at h
    · cases h
    · cases h
      exact foldl_sessions_frame _ (fun a st0 => (insert_sessions_frame st0).2.2.2.2 a ext) qs st

/-- The bootstrap never touches the session table. -/
theorem setDefault_sessions_frame (ld : LocationData) (st : Store) :
    (setDefault ld st).1.sessions = st.sessions := by
  unfold setDefault
  split
  · rfl
  · dsimp only
    cases h1 : DB.addCountries (cityDataEntities ld.cityData).1 false st with
    | error e => rfl
    | ok st1 =>
      dsimp only
      have hf1 := ((addOps_sessions_frame st st1 false).1 _ h1)
      cases h2 : DB.addStates (cityDataEntities ld.cityData).2.1 false st1 with
      | error e => exact hf1
      | ok st2 =>
        dsimp only
        have hf2 := ((addOps_sessions_frame st1 st2 false).2.1 _ h2)
        cases h3 : DB.addCities (cityDataEntities ld.cityData).2.2 false st2 with
        | error e => exact hf2.trans hf1
        | ok st3 =>
          dsimp only
          have hf3 := ((addOps_sessions_frame st2 st3 false).2.2.1 _ h3)
          cases h4 : DB.addZips (zipDataEntities ld.zipData) false st3 with
          | error e => exact (hf3.trans hf2).trans hf1
          | ok st4 =>
            dsimp only
            have hf4 := ((addOps_sessions_frame st3 st4 false).2.2.2.1 _ h4)
            exact ((hf4.trans hf3).trans hf2).trans hf1

/-- `MarkComplete` never increases the active count and never changes the
number of session rows. -/
theorem markComplete_active (sm : StateManager) :
    activeCount (markComplete sm).db ≤ activeCount sm.db
    ∧ (markComplete sm).db.sessions.length = sm.db.sessions.length := by
  unfold markComplete
  cases hc : DB.getCurrentNavSession sm.db with
  | some s =>
    dsimp only
    exact ⟨activeCount_updateCompleted s.id sm.db, sessions_length_updateCompleted s.id sm.db⟩
  | none => exact ⟨Nat.le_refl _, rfl⟩

/-- `SetPageNav` leaves the active count and the number of session rows
unchanged. -/
theorem setPageNav_active (t : Int) (ps : List Int) (sm : StateManager) :
    activeCount (setPageNav t ps sm).db = activeCount sm.db
    ∧ (setPageNav t ps sm).db.sessions.length = sm.db.sessions.length := by
  unfold setPageNav
  cases sm.currentNav with
  | none => exact ⟨rfl, rfl⟩
  | some cn =>
    dsimp only
    cases hc : DB.getCurrentNavSession sm.db with
    | some s =>
      dsimp only
      exact ⟨activeCount_updatePage s.id _ sm.db, sessions_length_updatePage s.id _ sm.db⟩
    | none => exact ⟨rfl, rfl⟩

/-- `MarkPageAsDone` never increases the active count and never changes the
number of session rows. -/
theorem markPageAsDone_active (p : Int) (sm : StateManager) :
    activeCount (markPageAsDone p sm).db ≤ activeCount sm.db
    ∧ (markPageAsDone p sm).db.sessions.length = sm.db.sessions.length := by
  unfold markPageAsDone
  cases sm.currentNav with
  | none => exact ⟨Nat.le_refl _, rfl⟩
  | some cn =>
    dsimp only
    split
    · exact ⟨Nat.le_refl _, rfl⟩
    · split
      · split
        · exact ⟨Nat.le_refl _, rfl⟩
        · cases hc : DB.getCurrentNavSession sm.db with
          | some s =>
            dsimp only
            split
            · constructor
              · refine Nat.le_trans (markComplete_active _).1 ?_
                exact Nat.le_of_eq (activeCount_updatePage s.id _ sm.db)
              · exact ((markComplete_active _).2).trans (sessions_length_updatePage s.id _ sm.db)
            · exact ⟨Nat.le_of_eq (activeCount_updatePage s.id _ sm.db),
                sessions_length_updatePage s.id _ sm.db⟩
          | none => exact ⟨Nat.le_refl _, rfl⟩
      · exact ⟨Nat.le_refl _, rfl⟩

/-- `restoreOrStartSession` preserves the one-active-session bound, and it
grows the session table only from a state with no active session. -/
theorem restore_active (sm : StateManager) (hinv : activeCount sm.db ≤ 1) :
    activeCount (restoreOrStartSession sm).db ≤ 1
    ∧ ((restoreOrStartSession sm).db.sessions.length > sm.db.sessions.length →
        activeCount sm.db = 0) := by
  cases hc : DB.getCurrentNavSession sm.db with
  | some s =>
    have hdb := (restore_some_shape sm s hc).1
    rw [hdb]
    exact ⟨hinv, fun h => absurd h (Nat.lt_irrefl _)⟩
  | none =>
    have h0 : activeCount sm.db = 0 := (active_none_iff sm.db).mp hc
    rw [restore_none_shape sm hc]
    cases hb : buildNavResponseFromIndex sm 0 with
    | none =>
      have hle : activeCount sm.db ≤ 1 := hinv
      exact ⟨hle, fun _ => h0⟩
    | some nv =>
      dsimp only
      obtain ⟨s', heq, hcomp, _⟩ :=
        saveCurrentSession_sessions { sm with currentNav := some nv } nv rfl
      have hgact : activeCount (saveCurrentSession { sm with currentNav := some nv }).db
          = activeCount sm.db + 1 := by
        unfold activeCount
        rw [heq, listActive_append, hcomp]
        rfl
      refine ⟨?_, fun _ => h0⟩
      rw [hgact, h0]

/-- `GetNextNav` preserves the one-active-session bound, and it grows the
session table only from a state with no active session. -/
theorem getNextNav_active (sm : StateManager) (hinv : activeCount sm.db ≤ 1) :
    activeCount (getNextNav sm).2.db ≤ 1
    ∧ ((getNextNav sm).2.db.sessions.length > sm.db.sessions.length →
        activeCount sm.db = 0) := by
  unfold getNextNav
  dsimp only
  cases hc : DB.getCurrentNavSession sm.db with
  | some s =>
    have hactive : sessionIsActive (some s) = true := by
      simp [sessionIsActive, active_some_completed hc]
    rw [hactive]
    exact ⟨hinv, fun h => absurd h (Nat.lt_irrefl _)⟩
  | none =>
    have h0 : activeCount sm.db = 0 := (active_none_iff sm.db).mp hc
    have hfalse : sessionIsActive (none : Option NavSession) = false := rfl
    rw [hfalse]
    cases hb : buildNavResponseFromIndex { sm with currentIndex := sm.currentIndex + 1 }
        (sm.currentIndex + 1) with
    | none =>
      have hle : activeCount sm.db ≤ 1 := hinv
      exact ⟨hle, fun _ => h0⟩
    | some nv =>
      dsimp only
      obtain ⟨s', heq, hcomp, _⟩ := saveCurrentSession_sessions
        { { sm with currentIndex := sm.currentIndex + 1 } with currentNav := some nv } nv rfl
      have hgact : activeCount (saveCurrentSession
          { { sm with currentIndex := sm.currentIndex + 1 } with
            currentNav := some nv }).db = activeCount sm.db + 1 := by
        unfold activeCount
        rw [heq, listActive_append, hcomp]
        rfl
      dsimp only at hgact
      refine ⟨?_, fun _ => h0⟩
      have hle1 : activeCount (saveCurrentSession
          { sm with currentIndex := sm.currentIndex + 1, currentNav := some nv }).db ≤ 1 := by
        rw [hgact, h0]
      exact hle1

/-- `restoreOrStartSession`, compared against any baseline store holding the
same session rows: the bound is preserved and growth implies the baseline
had no active session. -/
theorem restore_active_bridge (smx : StateManager) (base : Store)
    (hsessions : smx.db.sessions = base.sessions)
    (hinv : activeCount base ≤ 1) :
    activeCount (restoreOrStartSession smx).db ≤ 1
    ∧ ((restoreOrStartSession smx).db.sessions.length > base.sessions.length →
        activeCount base = 0) := by
  have hact : activeCount smx.db = activeCount base := by
    unfold activeCount
    rw [hsessions]
  obtain ⟨h1, h2⟩ := restore_active smx (by rw [hact]; exact hinv)
  refine ⟨h1, fun hgt => ?_⟩
  rw [← hact]
  exact h2 (by rw [hsessions]; exact hgt)

/-- `Init` preserves the one-active-session bound, and it grows the session
table only from a state with no active session (the bootstrap only writes
entity tables). -/
theorem initSM_active (ld : LocationData) (opts : InitOptions) (sm : StateManager)
    (hinv : activeCount sm.db ≤ 1) :
    activeCount (initSM ld opts sm).db ≤ 1
    ∧ ((initSM ld opts sm).db.sessions.length > sm.db.sessions.length →
        activeCount sm.db = 0) := by
  unfold initSM
  dsimp only
  have hframe : (setDefault ld sm.db).1.sessions = sm.db.sessions :=
    setDefault_sessions_frame ld sm.db
  have hact : activeCount (setDefault ld sm.db).1 = activeCount sm.db := by
    unfold activeCount
    rw [hframe]
  split
  · exact restore_active_bridge _ sm.db hframe hinv
  · constructor
    · have hb : activeCount (setDefault ld sm.db).1 ≤ 1 := by
        rw [hact]
        exact hinv
      exact hb
    · intro hgt
      have hgt2 : (setDefault ld sm.db).1.sessions.length > sm.db.sessions.length := hgt
      have hlen : (setDefault ld sm.db).1.sessions.length = sm.db.sessions.length := by
        rw [hframe]
      omega

/-- `ResetNav` leaves at most one active session and grows the session table
only from a state with no session rows. -/
theorem resetNav_active (sm : StateManager) :
    activeCount (resetNav sm).db ≤ 1
    ∧ ((resetNav sm).db.sessions.length > sm.db.sessions.length →
        activeCount sm.db = 0) := by
  obtain ⟨hlen, -, -, -⟩ := restore_empty_sessions
    { sm with db := DB.resetNavSessions sm.db, currentIndex := 0, currentNav := none } rfl
  have hlen2 : (resetNav sm).db.sessions.length ≤ 1 := hlen
  constructor
  · exact Nat.le_trans (listActive_le_length (resetNav sm).db.sessions) hlen2
  · intro h
    have hle : activeCount sm.db ≤ sm.db.sessions.length :=
      listActive_le_length sm.db.sessions
    omega

/-- The Go methods that return an error before writing leave the manager
unchanged; this folds an `Except`-returning operation back to a state. -/
def exceptState (r : Except String StateManager) (fallback : StateManager) : StateManager :=
  match r with
  | Except.ok sm' => sm'
  | Except.error _ => fallback

/-- `AddSearchQueries` never touches the session table (on error the manager
is unchanged). -/
theorem addSearchQueries_sessions (qs : List String) (sm : StateManager) :
    (exceptState (addSearchQueries qs sm) sm).db.sessions = sm.db.sessions := by
  unfold addSearchQueries
  split
  · rfl
  · cases h : DB.addQueries qs true sm.db with
    | error e => rfl
    | ok st1 =>
      dsimp only [exceptState]
      exact (addOps_sessions_frame sm.db st1 true).2.2.2.2 qs h

/-- `ClearSearchQueries` never touches the session table. -/
theorem clearSearchQueries_sessions (sm : StateManager) :
    (clearSearchQueries sm).db.sessions = sm.db.sessions := rfl

/-- `refreshData` never touches the store. -/
theorem refreshData_db (sm : StateManager) : (refreshData sm).db = sm.db := rfl

/-- The public `AddCities` never touches the session table. -/
theorem addCitiesSM_sessions (cs : List CityInput) (sm : StateManager) :
    (exceptState (addCitiesSM cs sm) sm).db.sessions = sm.db.sessions := by
  unfold addCitiesSM
  split
  · rfl
  · split
    · rfl
    · dsimp only
      cases h : DB.addCities (cs.map (fun c =>
          ({ id := 0, city := c.city, stateShort := c.stateShort,
             countryShort := c.countryShort, county := none, used := false,
             external := true } : City))) true sm.db with
      | error e => rfl
      | ok st1 =>
        dsimp only [exceptState]
        rw [show (refreshData { sm with db := st1 }).db = st1 from rfl]
        exact (addOps_sessions_frame sm.db st1 true).2.2.1 _ h

/-- The public `AddStates` never touches the session table. -/
theorem addStatesSM_sessions (ss : List StateInput) (sm : StateManager) :
    (exceptState (addStatesSM ss sm) sm).db.sessions = sm.db.sessions := by
  unfold addStatesSM
  split
  · rfl
  · split
    · rfl
    · dsimp only
      cases h : DB.addStates (ss.map (fun s =>
          ({ state := s.state, stateShort := s.stateShort, countryShort := s.countryShort,
             used := false, external := true } : State))) true sm.db with
      | error e => rfl
      | ok st1 =>
        dsimp only [exceptState]
        rw [show (refreshData { sm with db := st1 }).db = st1 from rfl]
        exact (addOps_sessions_frame sm.db st1 true).2.1 _ h

/-- The public `AddCountries` never touches the session table. -/
theorem addCountriesSM_sessions (cs : List CountryInput) (sm : StateManager) :
    (exceptState (addCountriesSM cs sm) sm).db.sessions = sm.db.sessions := by
  unfold addCountriesSM
  split
  · rfl
  · split
    · rfl
    · dsimp only
      cases h : DB.addCountries (cs.map (fun c =>
          ({ country := c.country, countryShort := c.countryShort,
             used := false, external := true } : Country))) true sm.db with
      | error e => rfl
      | ok st1 =>
        dsimp only [exceptState]
        rw [show (refreshData { sm with db := st1 }).db = st1 from rfl]
        exact (addOps_sessions_frame sm.db st1 true).1 _ h

/-- One application of a public sequencer operation (`stateManager.go`'s
exported methods).  `Except`-returning operations fall back to the unchanged
manager on error, as the Go methods return before writing. -/
inductive NavStep : StateManager → StateManager → Prop where
  | init (ld : LocationData) (opts : InitOptions) (sm : StateManager) :
      NavStep sm (initSM ld opts sm)
  | advance (sm : StateManager) : NavStep sm (getNextNav sm).2
  | pageNav (t : Int) (ps : List Int) (sm : StateManager) : NavStep sm (setPageNav t ps sm)
  | pageDone (p : Int) (sm : StateManager) : NavStep sm (markPageAsDone p sm)
  | complete (sm : StateManager) : NavStep sm (markComplete sm)
  | reset (sm : StateManager) : NavStep sm (resetNav sm)
  | addQ (qs : List String) (sm : StateManager) :
      NavStep sm (exceptState (addSearchQueries qs sm) sm)
  | clearQ (sm : StateManager) : NavStep sm (clearSearchQueries sm)
  | addCi (cs : List CityInput) (sm : StateManager) :
      NavStep sm (exceptState (addCitiesSM cs sm) sm)
  | addSt (ss : List StateInput) (sm : StateManager) :
      NavStep sm (exceptState (addStatesSM ss sm) sm)
  | addCo (cs : List CountryInput) (sm : StateManager) :
      NavStep sm (exceptState (addCountriesSM cs sm) sm)
  | resetDb (sm : StateManager) : NavStep sm (resetDatabaseSM sm)

/-- States reachable from a fresh database (no session rows; entity contents
arbitrary) through the public sequencer operations.  Process restarts are
covered because the store carries over and `Init` is a step. -/
inductive NavReachable : StateManager → Prop where
  | base (sm : StateManager) : sm.db.sessions = [] → NavReachable sm
  | step (sm sm' : StateManager) : NavReachable sm → NavStep sm sm' → NavReachable sm'

/-- Every public operation preserves the at-most-one-active-session bound,
and only creates session rows from a state with no active session. -/
theorem navStep_preserves {sm sm' : StateManager} (h : NavStep sm sm')
    (hinv : activeCount sm.db ≤ 1) :
    activeCount sm'.db ≤ 1
    ∧ (sm'.db.sessions.length > sm.db.sessions.length → activeCount sm.db = 0) := by
  cases h with
  | init ld opts => exact initSM_active ld opts sm hinv
  | advance => exact getNextNav_active sm hinv
  | pageNav t ps =>
    obtain ⟨h1, h2⟩ := setPageNav_active t ps sm
    exact ⟨by rw [h1]; exact hinv, fun hgt => absurd hgt (by rw [h2]; exact Nat.lt_irrefl _)⟩
  | pageDone p =>
    obtain ⟨h1, h2⟩ := markPageAsDone_active p sm
    exact ⟨Nat.le_trans h1 hinv, fun hgt => absurd hgt (by rw [h2]; exact Nat.lt_irrefl _)⟩
  | complete =>
    obtain ⟨h1, h2⟩ := markComplete_active sm
    exact ⟨Nat.le_trans h1 hinv, fun hgt => absurd hgt (by rw [h2]; exact Nat.lt_irrefl _)⟩
  | reset => exact resetNav_active sm
  | addQ qs =>
    have hf := addSearchQueries_sessions qs sm
    have ha : activeCount (exceptState (addSearchQueries qs sm) sm).db = activeCount sm.db := by
      unfold activeCount
      rw [hf]
    exact ⟨by rw [ha]; exact hinv,
      fun hgt => absurd hgt (by rw [hf]; exact Nat.lt_irrefl _)⟩
  | clearQ =>
    exact ⟨hinv, fun hgt => absurd hgt (Nat.lt_irrefl _)⟩
  | addCi cs =>
    have hf := addCitiesSM_sessions cs sm
    have ha : activeCount (exceptState (addCitiesSM cs sm) sm).db = activeCount sm.db := by
      unfold activeCount
      rw [hf]
    exact ⟨by rw [ha]; exact hinv,
      fun hgt => absurd hgt (by rw [hf]; exact Nat.lt_irrefl _)⟩
  | addSt ss =>
    have hf := addStatesSM_sessions ss sm
    have ha : activeCount (exceptState (addStatesSM ss sm) sm).db = activeCount sm.db := by
      unfold activeCount
      rw [hf]
    exact ⟨by rw [ha]; exact hinv,
      fun hgt => absurd hgt (by rw [hf]; exact Nat.lt_irrefl _)⟩
  | addCo cs =>
    have hf := addCountriesSM_sessions cs sm
    have ha : activeCount (exceptState (addCountriesSM cs sm) sm).db = activeCount sm.db := by
      unfold activeCount
      rw [hf]
    exact ⟨by rw [ha]; exact hinv,
      fun hgt => absurd hgt (by rw [hf]; exact Nat.lt_irrefl _)⟩
  | resetDb =>
    have hz : (resetDatabaseSM sm).db.sessions = ([] : List NavSession) := rfl
    constructor
    · have : activeCount (resetDatabaseSM sm).db = 0 := by
        unfold activeCount listActive
        rw [hz]
        rfl
      rw [this]
      exact Nat.zero_le 1
    · intro hgt
      have hgt2 : (resetDatabaseSM sm).db.sessions.length > sm.db.sessions.length := hgt
      rw [hz] at hgt2
      simp at hgt2

/-- Every reachable state satisfies the bound. -/
theorem navReachable_active (sm : StateManager) (h : NavReachable sm) :
    activeCount sm.db ≤ 1 := by
  induction h with
  | base sm h0 =>
    unfold activeCount listActive
    rw [h0]
    exact Nat.zero_le 1
  | step sm sm' hr hs ih => exact (navStep_preserves hs ih).1

/-- C6: in every state reachable through the public sequencer operations, at
most one session row with `completed = false` exists, this is preserved by
every further operation, and a session row is only ever created (the session
table only grows) from a state with no active session. -/
theorem single_active_session (sm sm' : StateManager)
    (hr : NavReachable sm) (hs : NavStep sm sm') :
    activeCount sm.db ≤ 1
    ∧ activeCount sm'.db ≤ 1
    ∧ (sm'.db.sessions.length > sm.db.sessions.length → activeCount sm.db = 0) :=
  ⟨navReachable_active sm hr, (navStep_preserves hs (navReachable_active sm hr)).1,
   (navStep_preserves hs (navReachable_active sm hr)).2⟩

/-- Witness for C6: a concrete reachable state and a concrete advance. -/
theorem single_active_session_witness :
    activeCount (freshSM pagStore).db ≤ 1
    ∧ activeCount (getNextNav (freshSM pagStore)).2.db ≤ 1 :=
  ⟨(single_active_session (freshSM pagStore) (getNextNav (freshSM pagStore)).2
      (NavReachable.base _ rfl) (NavStep.advance _)).1,
   (single_active_session (freshSM pagStore) (getNextNav (freshSM pagStore)).2
      (NavReachable.base _ rfl) (NavStep.advance _)).2.1⟩

end Navii
